import Mathlib

/-!
# tidb-lightning `lightning/common/util.go`: error classification and the retry loop

A shallow embedding of `IsRetryableError`, `SQLWithRetry.perform`, `QueryRow`,
`Exec` and `Transact`, of `UniqueTable`, `WriteMySQLIdentifier`,
`MySQLConnectParam.ToDSN` and `GetJSON`, and of the CSV dialect validation of
`Config.Adjust` that `lightning/config/config_test.go` exercises.

* Go strings are byte sequences: `GoString` is a list of byte values.
* A non-nil Go `error` is a `GoError`; the interface value `nil` is `none`.
* Stateful code is written in state-passing style over an arbitrary state `σ`
  that stands for everything outside the function (database, connection pool).
-/

namespace Lightning

/-- A Go string: a sequence of bytes, each a number below 256. -/
abbrev GoString := List Nat

/-- The bytes of an ASCII literal of the source. -/
def ascii (s : String) : GoString := s.toList.map Char.toNat

/-! ## gRPC status codes (`google.golang.org/grpc/codes`, a `uint32`) -/

namespace codes
def OK : Nat := 0
def Canceled : Nat := 1
def Unknown : Nat := 2
def InvalidArgument : Nat := 3
def DeadlineExceeded : Nat := 4
def NotFound : Nat := 5
def AlreadyExists : Nat := 6
def PermissionDenied : Nat := 7
def ResourceExhausted : Nat := 8
def FailedPrecondition : Nat := 9
def Aborted : Nat := 10
def OutOfRange : Nat := 11
def Unimplemented : Nat := 12
def Internal : Nat := 13
def Unavailable : Nat := 14
def DataLoss : Nat := 15
def Unauthenticated : Nat := 16
end codes

/-! ## MySQL / TiDB error numbers (`github.com/pingcap/parser/mysql`) -/

namespace tmysql
def ErrUnknown : Nat := 1105
def ErrLockDeadlock : Nat := 1213
def ErrWriteConflictInTiDB : Nat := 8005
def ErrPDServerTimeout : Nat := 9001
def ErrTiKVServerTimeout : Nat := 9002
def ErrTiKVServerBusy : Nat := 9003
def ErrResolveLockTimeout : Nat := 9004
def ErrRegionUnavailable : Nat := 9005
end tmysql

/-! ## Error values -/

/-- A non-nil Go error value, by the features `IsRetryableError` inspects:
identity with a sentinel, dynamic type, and the wrapper layers of
`github.com/pingcap/errors` that `errors.Cause` strips. -/
inductive GoError where
  /-- The sentinel `context.Canceled` (dynamic type `*errors.errorString`). -/
  | ctxCanceled
  /-- The sentinel `context.DeadlineExceeded`; its dynamic type has the methods
  `Timeout() = true` and `Temporary() = true`, so it satisfies `net.Error`. -/
  | ctxDeadlineExceeded
  /-- The sentinel `io.EOF` (dynamic type `*errors.errorString`). -/
  | ioEOF
  /-- Any other value whose dynamic type satisfies `net.Error`; `timeout` is the
  result of `Timeout()`, `status` the code of `GRPCStatus()` when the type has
  that method too. -/
  | netError (timeout : Bool) (status : Option Nat) (msg : GoString)
  /-- A `*mysql.MySQLError` with its `Number` field. -/
  | mysqlError (number : Nat) (msg : GoString)
  /-- A value with a `GRPCStatus()` method (not a `net.Error`) reporting `code`. -/
  | grpcStatus (code : Nat) (msg : GoString)
  /-- A `*errors.errorString` made by the standard `errors.New`, other than the sentinels. -/
  | stdError (msg : GoString)
  /-- A value of any other dynamic type: no `Cause`, `Timeout` or `GRPCStatus` method. -/
  | other (msg : GoString)
  /-- The `withMessage` layer of `pingcap/errors`; `Cause()` returns `cause`. -/
  | withMessage (msg : GoString) (cause : GoError)
  /-- The `withStack` layer of `pingcap/errors`; `Cause()` returns `cause`. -/
  | withStack (cause : GoError)
  deriving DecidableEq, Repr

/-- A Go `error` interface value: `none` is `nil`. -/
abbrev Error := Option GoError

namespace GoError

/-- `errors.Cause` on a non-nil error: follow `Cause()` while the value has one. -/
def cause : GoError → GoError
  | withMessage _ c => cause c
  | withStack c => cause c
  | e => e

/-- `errors.HasStack`: some layer of the chain carries a stack trace. -/
def hasStack : GoError → Bool
  | withMessage _ c => hasStack c
  | withStack _ => true
  | _ => false

/-- The type assertion `err.(net.Error)`: the value of `Timeout()` when the
dynamic type satisfies `net.Error`. -/
def asNetError : GoError → Option Bool
  | netError t _ _ => some t
  | ctxDeadlineExceeded => some true
  | _ => none

/-- The type assertion `err.(*mysql.MySQLError)`: the `Number` field. -/
def asMySQLError : GoError → Option Nat
  | mysqlError n _ => some n
  | _ => none

/-- `status.Code(err)` for a non-nil error: the code of `GRPCStatus()` when the
value has that method, `codes.Unknown` otherwise. -/
def statusCode : GoError → Nat
  | grpcStatus c _ => c
  | netError _ (some c) _ => c
  | _ => codes.Unknown

/-- `reflect.TypeOf(err) == stdErrorType`: the dynamic type is `*errors.errorString`. -/
def isStdErrorType : GoError → Bool
  | stdError _ => true
  | ctxCanceled => true
  | ioEOF => true
  | _ => false

/-- `err.Error()` for the causes whose message the classifier can read. -/
def message : GoError → GoString
  | ctxCanceled => ascii "context canceled"
  | ctxDeadlineExceeded => ascii "context deadline exceeded"
  | ioEOF => ascii "EOF"
  | netError _ _ m => m
  | mysqlError _ m => m
  | grpcStatus _ m => m
  | stdError m => m
  | other m => m
  | withMessage m c => m ++ ascii ": " ++ message c
  | withStack c => message c

end GoError

/-- `errors.Cause(err)`. -/
def Cause (err : Error) : Error := err.map GoError.cause

/-- `errors.Trace(err)`: nil stays nil; a stack layer is added unless one is there. -/
def Trace (err : Error) : Error :=
  match err with
  | none => none
  | some e => if e.hasStack then some e else some (.withStack e)

/-- `errors.Annotate(err, message)`: nil stays nil; otherwise a message layer,
under a stack layer when the chain had none. -/
def Annotate (err : Error) (message : GoString) : Error :=
  match err with
  | none => none
  | some e =>
    if e.hasStack then some (.withMessage message e)
    else some (.withStack (.withMessage message e))

/-- `errors.Annotatef(err, format, args...)` with `message` the formatted text. -/
def Annotatef (err : Error) (message : GoString) : Error :=
  match err with
  | none => none
  | some e =>
    if e.hasStack then some (.withMessage message e)
    else some (.withStack (.withMessage message e))

/-! ## The regular expression `stdFatalErrorsRegexp` -/

/-- The fragment of Go `regexp` syntax (RE2) that the pattern of the source uses. -/
inductive Regex where
  /-- The empty expression: matches the empty string. -/
  | empty
  /-- A literal byte. -/
  | lit (b : Nat)
  /-- `(?s:.*)`: any run of characters, newline included. -/
  | anyStar
  /-- `^` without the `m` flag: the beginning of the text. -/
  | beginText
  /-- Concatenation. -/
  | seq (a b : Regex)
  /-- Alternation `a|b`, the operator of lowest precedence. -/
  | alt (a b : Regex)
  deriving DecidableEq, Repr

namespace Regex

/-- A literal string: the concatenation of its bytes. -/
def lits : GoString → Regex
  | [] => empty
  | b :: bs => seq (lit b) (lits bs)

/-- Try the continuation `k` on every suffix of `s`: what `.*` followed by `k`
can match. The position is the beginning of the text only for `s` itself. -/
def anySuffix (k : Bool → GoString → Bool) (atStart : Bool) : GoString → Bool
  | [] => k atStart []
  | b :: t => k atStart (b :: t) || anySuffix k false t

/-- Backtracking matcher in continuation-passing style: `r` matches a prefix
of `s` and `k` accepts what is left. `atStart` says whether the position is the
beginning of the text. -/
def matchK : Regex → Bool → GoString → (Bool → GoString → Bool) → Bool
  | empty, st, s, k => k st s
  | lit c, _, s, k =>
    match s with
    | [] => false
    | x :: t => x == c && k false t
  | anyStar, st, s, k => anySuffix k st s
  | beginText, st, s, k => st && k st s
  | seq a b, st, s, k => matchK a st s (fun st1 s1 => matchK b st1 s1 k)
  | alt a b, st, s, k => matchK a st s k || matchK b st s k

/-- Unanchored search from a position: a match starts here or further right. -/
def searchFrom (r : Regex) (atStart : Bool) : GoString → Bool
  | [] => matchK r atStart [] (fun _ _ => true)
  | b :: t => matchK r atStart (b :: t) (fun _ _ => true) || searchFrom r false t

/-- `(*Regexp).MatchString`: the text contains a match of the expression. -/
def MatchString (r : Regex) (s : GoString) : Bool := searchFrom r true s

end Regex

/-- The source's
`^call to (?s:.*) was not expected|arguments do not match:|could not match actual sql`:
three alternatives, the `^` belonging to the first one only. -/
def stdFatalErrorsRegexp : Regex :=
  .alt
    (.seq .beginText
      (.seq (Regex.lits (ascii "call to "))
        (.seq .anyStar (Regex.lits (ascii " was not expected")))))
    (.alt (Regex.lits (ascii "arguments do not match:"))
      (Regex.lits (ascii "could not match actual sql")))

/-! ## `IsRetryableError` -/

/-- `IsRetryableError` of the source. -/
def IsRetryableError (err : Error) : Bool :=
  match Cause err with
  | none => false
  | some .ctxCanceled => false
  | some .ctxDeadlineExceeded => false
  | some .ioEOF => false
  | some e =>
    match e.asNetError with
    | some timeout => timeout
    | none =>
      match e.asMySQLError with
      | some number =>
        if number = tmysql.ErrUnknown ∨ number = tmysql.ErrLockDeadlock
            ∨ number = tmysql.ErrWriteConflictInTiDB ∨ number = tmysql.ErrPDServerTimeout
            ∨ number = tmysql.ErrTiKVServerTimeout ∨ number = tmysql.ErrTiKVServerBusy
            ∨ number = tmysql.ErrResolveLockTimeout ∨ number = tmysql.ErrRegionUnavailable
        then true
        else false
      | none =>
        let c := e.statusCode
        if c = codes.DeadlineExceeded ∨ c = codes.NotFound ∨ c = codes.AlreadyExists
            ∨ c = codes.PermissionDenied ∨ c = codes.ResourceExhausted ∨ c = codes.Aborted
            ∨ c = codes.OutOfRange ∨ c = codes.Unavailable ∨ c = codes.DataLoss
        then true
        else if c = codes.Unknown then
          if e.isStdErrorType then !(stdFatalErrorsRegexp.MatchString e.message)
          else true
        else false


/-! ## The retry loop `SQLWithRetry.perform` -/

/-- `time.Second`: durations are counted in nanoseconds. -/
def Second : Nat := 1000000000

/-- The constant `retryTimeout = 3 * time.Second`. -/
def retryTimeout : Nat := 3 * Second

/-- The constant `defaultMaxRetry = 3`. -/
def defaultMaxRetry : Nat := 3

/-- A field attached to a logger by `With`. -/
inductive LogField where
  | retryCnt (i : Nat)
  | query (q : GoString)
  | args (a : List GoString)
  deriving DecidableEq, Repr

/-- A `log.Logger`: the fields attached so far. -/
abbrev Logger := List LogField

/-- What one run of `perform` does besides calling the action, in order. -/
inductive LoopEvent where
  /-- A call of `logger.Warn` with its message and its `log.ShortError` field. -/
  | warn (logger : Logger) (msg : GoString) (err : Error)
  /-- A call of `time.Sleep` with its duration. -/
  | sleep (d : Nat)
  /-- The statement `err = action()` in iteration `i`. -/
  | invoke (i : Nat)
  deriving DecidableEq, Repr

/-- The result of a run of `perform`: the returned error, the state the
action's calls left behind, and the events of the loop in order. -/
structure Outcome (σ : Type) where
  err : Error
  state : σ
  events : List LoopEvent

/-- The `for i := 0; i < defaultMaxRetry; i++` loop of `perform`, entered at
iteration `i` with `fuel = defaultMaxRetry - i` iterations to go. `err` is the
variable `err` of the source, `s` the state, `ev` the events so far. With no
iteration left, and after `break outside`, control reaches the final
`return errors.Annotatef(err, "%s failed", purpose)`. -/
def performLoop {σ : Type} (parentLogger : Logger) (purpose : GoString)
    (action : σ → Error × σ) : Nat → Nat → Error → σ → List LoopEvent → Outcome σ
  | 0, _, err, s, ev => ⟨Annotatef err (purpose ++ ascii " failed"), s, ev⟩
  | fuel + 1, i, _, s, ev =>
    let logger := parentLogger ++ [LogField.retryCnt i]
    let ev1 :=
      if i > 0 then
        ev ++ [LoopEvent.warn logger (purpose ++ ascii " retry start") none,
               LoopEvent.sleep retryTimeout]
      else ev
    let r := action s
    let ev2 := ev1 ++ [LoopEvent.invoke i]
    match r.1 with
    | none => ⟨none, r.2, ev2⟩
    | some e =>
      if IsRetryableError (some e) then
        performLoop parentLogger purpose action fuel (i + 1) (some e) r.2
          (ev2 ++ [LoopEvent.warn logger
            (purpose ++ ascii " failed but going to try again") (some e)])
      else ⟨Annotatef (some e) (purpose ++ ascii " failed"), r.2, ev2⟩

/-- `SQLWithRetry.perform`: the loop from `i = 0` with `err` nil. -/
def perform {σ : Type} (parentLogger : Logger) (purpose : GoString)
    (action : σ → Error × σ) (s : σ) : Outcome σ :=
  performLoop parentLogger purpose action defaultMaxRetry 0 none s []

/-! ## `QueryRow`, `Exec`, `Transact` -/

/-- The operations of `*sql.DB` and `*sql.Tx` the source calls, each a
transition of the outside state that may fail. -/
structure DB (σ : Type) where
  /-- `DB.QueryRowContext(ctx, query).Scan(dest...)`. -/
  QueryRowScan : GoString → σ → Error × σ
  /-- `DB.ExecContext(ctx, query, args...)`, its result discarded. -/
  ExecContext : GoString → List GoString → σ → Error × σ
  /-- `DB.BeginTx(ctx, nil)`. -/
  BeginTx : σ → Error × σ
  /-- `txn.Rollback()`. -/
  Rollback : σ → Error × σ
  /-- `txn.Commit()`. -/
  Commit : σ → Error × σ

/-- The struct `SQLWithRetry`. -/
structure SQLWithRetry (σ : Type) where
  DB : DB σ
  Logger : Logger
  HideQueryLog : Bool

/-- A call made by one attempt of `Transact`, in order. -/
inductive TxCall where
  | beginTx
  | action
  | rollback
  | commit
  /-- `t.Logger.Error(purpose+" rollback transaction failed", log.ShortError(rerr))`. -/
  | logError (msg : GoString) (rerr : GoError)
  deriving DecidableEq, Repr

/-- `SQLWithRetry.QueryRow`. -/
def QueryRow {σ : Type} (t : SQLWithRetry σ) (purpose query : GoString) (s : σ) : Outcome σ :=
  let logger := if !t.HideQueryLog then t.Logger ++ [LogField.query query] else t.Logger
  perform logger purpose (fun s1 => t.DB.QueryRowScan query s1) s

/-- The closure `Transact` hands to `perform`: one attempt. The state carries
the list of calls the attempts have made. -/
def transactAttempt {σ : Type} (t : SQLWithRetry σ) (purpose : GoString)
    (action : σ → Error × σ) (w : σ × List TxCall) : Error × (σ × List TxCall) :=
  let b := t.DB.BeginTx w.1
  let calls := w.2 ++ [TxCall.beginTx]
  match b.1 with
  | some e => (Annotate (some e) (ascii "begin transaction failed"), (b.2, calls))
  | none =>
    let a := action b.2
    let calls := calls ++ [TxCall.action]
    match a.1 with
    | some e =>
      let r := t.DB.Rollback a.2
      let calls := calls ++ [TxCall.rollback]
      let calls :=
        match r.1 with
        | some rerr =>
          calls ++ [TxCall.logError (purpose ++ ascii " rollback transaction failed") rerr]
        | none => calls
      (some e, (r.2, calls))
    | none =>
      let c := t.DB.Commit a.2
      let calls := calls ++ [TxCall.commit]
      match c.1 with
      | some e => (Annotate (some e) (ascii "commit transaction failed"), (c.2, calls))
      | none => (none, (c.2, calls))

/-- `SQLWithRetry.Transact`. -/
def Transact {σ : Type} (t : SQLWithRetry σ) (purpose : GoString)
    (action : σ → Error × σ) (s : σ) : Outcome (σ × List TxCall) :=
  perform t.Logger purpose (transactAttempt t purpose action) (s, [])

/-- The closure `Exec` hands to `perform`: one attempt. -/
def execAttempt {σ : Type} (t : SQLWithRetry σ) (query : GoString) (args : List GoString)
    (s : σ) : Error × σ :=
  let r := t.DB.ExecContext query args s
  (Trace r.1, r.2)

/-- `SQLWithRetry.Exec`. -/
def Exec {σ : Type} (t : SQLWithRetry σ) (purpose query : GoString) (args : List GoString)
    (s : σ) : Outcome σ :=
  let logger :=
    if !t.HideQueryLog then t.Logger ++ [LogField.query query, LogField.args args]
    else t.Logger
  perform logger purpose (execAttempt t query args) s

/-! ## Reading a run -/

/-- The number of times the loop called the action. -/
def Outcome.attempts {σ : Type} (r : Outcome σ) : Nat :=
  r.events.countP (fun e => match e with | .invoke _ => true | _ => false)

/-- The durations of the sleeps of the loop, in order. -/
def Outcome.sleeps {σ : Type} (r : Outcome σ) : List Nat :=
  r.events.filterMap (fun e => match e with | .sleep d => some d | _ => none)

/-- The sleeps and action calls of the loop, in order, log lines left out. -/
def Outcome.steps {σ : Type} (r : Outcome σ) : List LoopEvent :=
  r.events.filter (fun e => match e with | .warn _ _ _ => false | _ => true)

/-- The result of the `j`-th call of the action (from 0) when the calls are
made one after the other from state `s`. -/
def nthCall {σ : Type} (action : σ → Error × σ) (s : σ) : Nat → Error × σ
  | 0 => action s
  | j + 1 => action (nthCall action s j).2

/-- An attempt after which the loop does not go round again: the action
succeeded or failed with an error that is not retryable. -/
def stops (err : Error) : Bool := err.isNone || !IsRetryableError err

/-- A wrapper of `github.com/pingcap/errors` a caller may put around an error. -/
inductive Wrapper where
  | trace
  | annotate (message : GoString)
  | annotatef (message : GoString)
  deriving DecidableEq, Repr

/-- Apply one wrapper. -/
def Wrapper.apply : Wrapper → Error → Error
  | .trace, e => Trace e
  | .annotate m, e => Annotate e m
  | .annotatef m, e => Annotatef e m

/-- Apply a list of wrappers, the last of the list first (innermost). -/
def wrapAll (ws : List Wrapper) (e : Error) : Error := ws.foldr Wrapper.apply e

/-- The three sentinel values the first `switch` of `IsRetryableError` names. -/
def GoError.isSentinel : GoError → Bool
  | .ctxCanceled => true
  | .ctxDeadlineExceeded => true
  | .ioEOF => true
  | _ => false

/-- The sleeps and action calls of a run with `n` attempts as the claim
describes them: the first call with no sleep before it, each later call
directly after one sleep of `retryTimeout`. -/
def expectedSteps (n : Nat) : List LoopEvent :=
  (List.range n).flatMap
    (fun i => if i = 0 then [LoopEvent.invoke 0]
      else [LoopEvent.sleep retryTimeout, LoopEvent.invoke i])

/-- An action that fails with a retryable error on every invocation. -/
def AlwaysRetryable {σ : Type} (action : σ → Error × σ) : Prop :=
  ∀ s, ∃ e, (action s).1 = some e ∧ IsRetryableError (some e) = true

/-- The number of calls of the user's action recorded in a call list of `Transact`. -/
def actionCalls (calls : List TxCall) : Nat := calls.count TxCall.action

/-! ## Sample inputs -/

/-- A server error "TiKV server is busy", which the classifier retries. -/
def busyError : GoError := .mysqlError tmysql.ErrTiKVServerBusy (ascii "TiKV server is busy")

/-- A database over a call counter whose every operation fails with `busyError`. -/
def busyDB : DB Nat where
  QueryRowScan := fun _ n => (some busyError, n + 1)
  ExecContext := fun _ _ n => (some busyError, n + 1)
  BeginTx := fun n => (some busyError, n + 1)
  Rollback := fun n => (some busyError, n + 1)
  Commit := fun n => (some busyError, n + 1)

/-- A retrying executor on `busyDB`. -/
def busyRetry : SQLWithRetry Nat := ⟨busyDB, [], false⟩

/-- An action over a call counter that always fails with `busyError`. -/
def busyAction (n : Nat) : Error × Nat := (some busyError, n + 1)

/-- An action that fails with `busyError` on its first call and succeeds afterwards. -/
def busyOnceAction (n : Nat) : Error × Nat := (if n = 0 then some busyError else none, n + 1)

/-- An action that fails with `busyError` on its first call and then with an
annotated `context.Canceled`. -/
def busyThenCanceledAction (n : Nat) : Error × Nat :=
  (if n = 0 then some busyError
   else Annotate (some .ctxCanceled) (ascii "begin transaction failed"), n + 1)

/-- A database over a call counter whose transactions begin and commit, and
whose rollback fails with `busyError`. -/
def rollbackFailsDB : DB Nat where
  QueryRowScan := fun _ n => (none, n + 1)
  ExecContext := fun _ _ n => (none, n + 1)
  BeginTx := fun n => (none, n + 1)
  Rollback := fun n => (some busyError, n + 1)
  Commit := fun n => (none, n + 1)

/-- A retrying executor on `rollbackFailsDB`. -/
def rollbackFailsRetry : SQLWithRetry Nat := ⟨rollbackFailsDB, [], false⟩

/-- An error the classifier does not retry: a server error "duplicate entry" (1062). -/
def duplicateError : GoError := .mysqlError 1062 (ascii "Duplicate entry")

/-- An action over a call counter that always fails with `duplicateError`. -/
def duplicateAction (n : Nat) : Error × Nat := (some duplicateError, n + 1)

/-- An action over a call counter that always succeeds. -/
def okAction (n : Nat) : Error × Nat := (none, n + 1)

/-- A database over a call counter whose transactions begin and roll back, and
whose commit fails with `busyError`. -/
def commitFailsDB : DB Nat where
  QueryRowScan := fun _ n => (none, n + 1)
  ExecContext := fun _ _ n => (none, n + 1)
  BeginTx := fun n => (none, n + 1)
  Rollback := fun n => (none, n + 1)
  Commit := fun n => (some busyError, n + 1)

/-- A retrying executor on `commitFailsDB`. -/
def commitFailsRetry : SQLWithRetry Nat := ⟨commitFailsDB, [], false⟩


/-! ## `UniqueTable`, `WriteMySQLIdentifier` -/

/-- A `strings.Builder`: the bytes written so far. -/
abbrev Builder := GoString

/-- The loop `for i := 0; i < len(identifier); i++` of `WriteMySQLIdentifier`
over the bytes still to visit: byte 96, the backtick, is written twice
(`WriteString` of two backticks), any other byte once (`WriteByte`). -/
def writeIdentifierBytes (builder : Builder) : GoString → Builder
  | [] => builder
  | b :: rest =>
    if b = 96 then writeIdentifierBytes (builder ++ [96, 96]) rest
    else writeIdentifierBytes (builder ++ [b]) rest

/-- `WriteMySQLIdentifier`: a backtick, the loop, a backtick. `builder.Grow`
only reserves capacity. -/
def WriteMySQLIdentifier (builder : Builder) (identifier : GoString) : Builder :=
  writeIdentifierBytes (builder ++ [96]) identifier ++ [96]

/-- `UniqueTable`: byte 46 is the dot. -/
def UniqueTable (schema table : GoString) : GoString :=
  let builder : Builder := []
  let builder := WriteMySQLIdentifier builder schema
  let builder := builder ++ [46]
  let builder := WriteMySQLIdentifier builder table
  builder

/-- The escaping in the words of the specification: each backtick byte is
replaced by two backtick bytes, every other byte is left as it is, in order. -/
def doubleBackticks (s : GoString) : GoString :=
  s.flatMap (fun b => if b = 96 then [96, 96] else [b])


/-! ## `MySQLConnectParam.ToDSN` -/

/-- The struct `MySQLConnectParam`. `Vars` lists the entries of the Go map,
one per key; the order of the list carries no meaning. -/
structure MySQLConnectParam where
  Host : GoString
  Port : Int
  User : GoString
  Password : GoString
  SQLMode : GoString
  MaxAllowedPacket : Nat
  TLS : GoString
  Vars : List (GoString × GoString)

/-- The verb `%d` on an unsigned number: its decimal digits. -/
def decimalNat (n : Nat) : GoString := (Nat.toDigits 10 n).map Char.toNat

/-- The verb `%d` on a signed number: byte 45 is the minus sign. -/
def decimalInt : Int → GoString
  | Int.ofNat n => decimalNat n
  | Int.negSucc n => 45 :: decimalNat (n + 1)

/-- An argument of `fmt.Sprintf`. -/
inductive FmtArg where
  | str (s : GoString)
  | int (n : Int)
  | uint (n : Nat)

/-- `fmt.Sprintf` for the verbs the source uses, `%s` (bytes 37, 115) on a
string and `%d` (bytes 37, 100) on an integer, each taking the next argument;
every other byte of the format is copied. -/
def Sprintf : GoString → List FmtArg → GoString
  | 37 :: 115 :: rest, FmtArg.str s :: args => s ++ Sprintf rest args
  | 37 :: 100 :: rest, FmtArg.int n :: args => decimalInt n ++ Sprintf rest args
  | 37 :: 100 :: rest, FmtArg.uint n :: args => decimalNat n ++ Sprintf rest args
  | c :: rest, args => c :: Sprintf rest args
  | [], _ => []

/-- The byte `"0123456789ABCDEF"[n]`. -/
def upperhex (n : Nat) : Nat := if n < 10 then 48 + n else 55 + n

/-- `shouldEscape(c, encodeQueryComponent)` of `net/url`: letters, digits and
`-`, `_`, `.`, `~` are kept, every other byte is escaped. -/
def shouldEscape (c : Nat) : Bool :=
  !((97 ≤ c && c ≤ 122) || (65 ≤ c && c ≤ 90) || (48 ≤ c && c ≤ 57)
    || c == 45 || c == 95 || c == 46 || c == 126)

/-- `url.QueryEscape`: a space becomes `+` (byte 43), a byte to escape becomes
`%` (byte 37) and two upper-case hexadecimal digits. -/
def QueryEscape (s : GoString) : GoString :=
  s.flatMap (fun c =>
    if c = 32 then [43]
    else if shouldEscape c then [37, upperhex (c / 16), upperhex (c % 16)]
    else [c])

/-- The format of the first `Sprintf` of `ToDSN`; byte 39 is the single quote. -/
def dsnFormat : GoString :=
  ascii "%s:%s@tcp(%s:%d)/?charset=utf8mb4&sql_mode=" ++ [39] ++ ascii "%s" ++ [39]
    ++ ascii "&maxAllowedPacket=%d&tls=%s"

/-- `MySQLConnectParam.ToDSN`. `order` is the order in which
`for k, v := range param.Vars` visits the entries of the map; Go leaves it
unspecified, so it is any arrangement of `param.Vars` (see `RangeOrder`). -/
def ToDSN (param : MySQLConnectParam) (order : List (GoString × GoString)) : GoString :=
  let dsn := Sprintf dsnFormat
    [FmtArg.str param.User, FmtArg.str param.Password, FmtArg.str param.Host,
     FmtArg.int param.Port, FmtArg.str param.SQLMode, FmtArg.uint param.MaxAllowedPacket,
     FmtArg.str param.TLS]
  order.foldl
    (fun dsn kv => dsn ++ Sprintf (ascii "&%s=%s") [FmtArg.str kv.1, FmtArg.str (QueryEscape kv.2)])
    dsn

/-- The orders in which a `range` loop may visit the entries of a map. -/
def RangeOrder (m order : List (GoString × GoString)) : Prop := order.Perm m

/-- The base string of the DSN in the words of the specification. -/
def baseDSN (param : MySQLConnectParam) : GoString :=
  param.User ++ ascii ":" ++ param.Password ++ ascii "@tcp(" ++ param.Host ++ ascii ":"
    ++ decimalInt param.Port ++ ascii ")/?charset=utf8mb4&sql_mode=" ++ [39] ++ param.SQLMode
    ++ [39] ++ ascii "&maxAllowedPacket=" ++ decimalNat param.MaxAllowedPacket
    ++ ascii "&tls=" ++ param.TLS

/-- The text one round of the `range` loop of `ToDSN` appends for the entry
`kv`: the result of its `Sprintf`, the value escaped by `url.QueryEscape`. -/
def varSegment (kv : GoString × GoString) : GoString :=
  ascii "&" ++ kv.1 ++ ascii "=" ++ QueryEscape kv.2

/-- The connection parameters of `TestLoadConfig`, with the SQL mode left open. -/
def guestParam (mode : GoString) : MySQLConnectParam where
  Host := ascii "172.16.30.11"
  Port := 4001
  User := ascii "guest"
  Password := ascii "12345"
  SQLMode := mode
  MaxAllowedPacket := 67108864
  TLS := ascii "false"
  Vars := []

/-- Connection parameters with two session variables. -/
def twoVarsParam : MySQLConnectParam where
  Host := ascii "127.0.0.1"
  Port := 4000
  User := ascii "root"
  Password := []
  SQLMode := []
  MaxAllowedPacket := 67108864
  TLS := ascii "false"
  Vars := [(ascii "a", ascii "1"), (ascii "b", ascii "2")]


/-! ## `GetJSON` -/

/-- An `*http.Response` as far as `GetJSON` reads it: the status code and what
reading `resp.Body` to its end gives, the bytes or a read error. -/
structure Response where
  StatusCode : Nat
  Body : Except GoError GoString

/-- The constant `http.StatusOK`. -/
def StatusOK : Nat := 200

/-- `errors.Errorf` of `pingcap/errors` with `message` the formatted text: a
new error value that has no `Cause` method. -/
def Errorf (message : GoString) : GoError := .other message

/-- `GetJSON`. `get` is `client.Get`, `decode` is the JSON decoding of the body
into the target `v`, which returns an error or nil and the target as it is
afterwards. The result is the returned error and the target. -/
def GetJSON {α : Type} (get : GoString → Except GoError Response)
    (decode : GoString → α → Error × α) (url : GoString) (v : α) : Error × α :=
  match get url with
  | .error err => (Trace (some err), v)
  | .ok resp =>
    if resp.StatusCode ≠ StatusOK then
      match resp.Body with
      | .error err => (Trace (some err), v)
      | .ok body =>
        (some (Errorf (Sprintf (ascii "get %s http status code != 200, message %s")
          [FmtArg.str url, FmtArg.str body])), v)
    else
      match resp.Body with
      | .error err => (Trace (some err), v)
      | .ok body =>
        let r := decode body v
        (Trace r.1, r.2)

/-- A decoder that accepts every body and stores it as the target. -/
def storeDecode (body : GoString) (_ : GoString) : Error × GoString := (none, body)

/-- A client whose every request is answered with the given status and body. -/
def fixedClient (status : Nat) (body : GoString) (_ : GoString) : Except GoError Response :=
  .ok ⟨status, .ok body⟩


/-! ## `Config.Adjust`: the CSV dialect

`lightning/config/config.go` is not among the sources; its tests are. -/

/-- The CSV dialect of the configuration (`mydumper.csv`). -/
structure CSVConfig where
  Separator : GoString
  Delimiter : GoString
  BackslashEscape : Bool

/-- The text `invalid config: ` that starts every validation message. -/
def invalidConfig : GoString := ascii "invalid config: "

/-- The message of `TestInvalidCSV` for a separator that is not one byte long. -/
def msgSeparatorLength : GoString :=
  invalidConfig ++ [96] ++ ascii "mydumper.csv.separator" ++ [96]
    ++ ascii " must be exactly one byte long"

/-- The message of `TestInvalidCSV` for a delimiter longer than one byte. -/
def msgDelimiterLength : GoString :=
  invalidConfig ++ [96] ++ ascii "mydumper.csv.delimiter" ++ [96]
    ++ ascii " must be one byte long or empty"

/-- The message of `TestInvalidCSV` for a separator equal to the delimiter. -/
def msgSameCharacter : GoString :=
  invalidConfig ++ ascii "cannot use the same character for both CSV delimiter and separator"

/-- The message of `TestInvalidCSV` for a backslash used as `what` (separator
or delimiter) under backslash-escape; bytes 39 and 92 are the single quote and
the backslash. -/
def msgBackslash (what : GoString) : GoString :=
  invalidConfig ++ ascii "cannot use " ++ [39, 92, 39] ++ ascii " as CSV " ++ what
    ++ ascii " when " ++ [96] ++ ascii "mydumper.csv.backslash-escape" ++ [96]
    ++ ascii " is true"

/-- Modelled from the spec: the CSV dialect validation of `Config.Adjust`
(`lightning/config/config.go`, not among the sources). The rules are those of
the specification in its order (separator length, delimiter length, separator
equal to delimiter, backslash conflicts), the pass stopping at the first failing
rule; the messages are those `TestInvalidCSV` expects. The result is the error
message, or `none` when the dialect is accepted. -/
def adjustCSV (csv : CSVConfig) : Option GoString :=
  if csv.Separator.length ≠ 1 then some msgSeparatorLength
  else if csv.Delimiter.length > 1 then some msgDelimiterLength
  else if csv.Separator = csv.Delimiter then some msgSameCharacter
  else if csv.BackslashEscape = true ∧ csv.Separator = [92] then
    some (msgBackslash (ascii "separator"))
  else if csv.BackslashEscape = true ∧ csv.Delimiter = [92] then
    some (msgBackslash (ascii "delimiter"))
  else none

/-- An action that fails with `busyError` on its first call and then with
`duplicateError`. -/
def busyThenDuplicateAction (n : Nat) : Error × Nat :=
  (if n = 0 then some busyError else some duplicateError, n + 1)


/-! ## Percent-encoding in the words of the specification -/

/-- The upper-case hexadecimal digits. -/
def hexDigits : GoString := ascii "0123456789ABCDEF"

/-- The unreserved characters of a URI: letters, digits, `-`, `.`, `_`, `~`. -/
def isUnreserved (c : Nat) : Bool :=
  (ascii "ABCDEFGHIJKLMNOPQRSTUVWXYZabcdefghijklmnopqrstuvwxyz0123456789-._~").contains c

/-- Percent-encoding of one byte: an unreserved character stands for itself,
every other byte, the space included, is written as `%` (byte 37) and its two
upper-case hexadecimal digits. -/
def percentEncodeByte (c : Nat) : GoString :=
  if isUnreserved c then [c] else [37, hexDigits.getD (c / 16) 0, hexDigits.getD (c % 16) 0]

/-- Percent-encoding of a string, byte by byte. -/
def percentEncode (s : GoString) : GoString := s.flatMap percentEncodeByte

/-- The segment of one session variable in the words of the specification:
`&<key>=<percent-encoded value>`. -/
def specSegment (kv : GoString × GoString) : GoString :=
  ascii "&" ++ kv.1 ++ ascii "=" ++ percentEncode kv.2

/-- The segment of one session variable as the code writes it, said without
the code's own escaping function: the value percent-encoded byte by byte,
except that a space (byte 32) is written as `+` (byte 43). -/
def plusSegment (kv : GoString × GoString) : GoString :=
  ascii "&" ++ kv.1 ++ ascii "="
    ++ kv.2.flatMap (fun c => if c = 32 then [43] else percentEncodeByte c)

/-- Connection parameters with one session variable whose value has a space. -/
def spaceVarParam : MySQLConnectParam where
  Host := ascii "127.0.0.1"
  Port := 4000
  User := ascii "root"
  Password := []
  SQLMode := []
  MaxAllowedPacket := 67108864
  TLS := ascii "false"
  Vars := [(ascii "k", ascii "a b")]

/-- Connection parameters with two session variables whose values need escaping. -/
def escapedVarsParam : MySQLConnectParam where
  Host := ascii "127.0.0.1"
  Port := 4000
  User := ascii "root"
  Password := []
  SQLMode := []
  MaxAllowedPacket := 67108864
  TLS := ascii "false"
  Vars := [(ascii "k", ascii "a b"), (ascii "m", ascii "x&y")]


/-! ## Lemmas: causes and wrappers -/

theorem Cause_Trace (e : Error) : Cause (Trace e) = Cause e := by
  cases e with
  | none => rfl
  | some e => by_cases h : e.hasStack <;> simp [Trace, Cause, h, GoError.cause]

theorem Cause_Annotate (e : Error) (m : GoString) : Cause (Annotate e m) = Cause e := by
  cases e with
  | none => rfl
  | some e => by_cases h : e.hasStack <;> simp [Annotate, Cause, h, GoError.cause]

theorem Cause_Annotatef (e : Error) (m : GoString) : Cause (Annotatef e m) = Cause e := by
  cases e with
  | none => rfl
  | some e => by_cases h : e.hasStack <;> simp [Annotatef, Cause, h, GoError.cause]

theorem Cause_wrapAll (ws : List Wrapper) (e : Error) : Cause (wrapAll ws e) = Cause e := by
  induction ws with
  | nil => rfl
  | cons w ws ih =>
    cases w <;> simp [wrapAll, Wrapper.apply, Cause_Trace, Cause_Annotate, Cause_Annotatef] <;>
      exact ih

/-- The classifier reads its argument only through `errors.Cause`. -/
theorem IsRetryableError_congr (a b : Error) (h : Cause a = Cause b) :
    IsRetryableError a = IsRetryableError b := by
  unfold IsRetryableError
  rw [h]

theorem Annotatef_isSome (e : GoError) (m : GoString) : (Annotatef (some e) m).isSome = true := by
  by_cases h : e.hasStack <;> simp [Annotatef, h]

/-! ## Lemmas: the matcher -/

namespace Regex

theorem anySuffix_iff (k : Bool → GoString → Bool) (st : Bool) (s : GoString) :
    anySuffix k st s = true ↔ ∃ u v, s = u ++ v ∧ k (st && u.isEmpty) v = true := by
  induction s generalizing st with
  | nil =>
    constructor
    · intro h
      exact ⟨[], [], rfl, by simpa [anySuffix] using h⟩
    · rintro ⟨u, v, huv, hk⟩
      have hu : u = [] := (List.append_eq_nil.mp huv.symm).1
      have hv : v = [] := (List.append_eq_nil.mp huv.symm).2
      subst hu hv
      simpa [anySuffix] using hk
  | cons b t ih =>
    simp only [anySuffix, Bool.or_eq_true, ih]
    constructor
    · rintro (h | ⟨u, v, huv, hk⟩)
      · exact ⟨[], b :: t, rfl, by simpa using h⟩
      · exact ⟨b :: u, v, by simp [huv], by simpa using hk⟩
    · rintro ⟨u, v, huv, hk⟩
      cases u with
      | nil =>
        left
        simp only [List.nil_append] at huv
        subst huv
        simpa using hk
      | cons x u =>
        right
        simp only [List.cons_append, List.cons.injEq] at huv
        exact ⟨u, v, huv.2, by simpa using hk⟩

theorem matchK_lits (p : GoString) (st : Bool) (s : GoString) (k : Bool → GoString → Bool) :
    matchK (lits p) st s k = true ↔ ∃ v, s = p ++ v ∧ k (st && p.isEmpty) v = true := by
  induction p generalizing st s with
  | nil => simp [lits, matchK]
  | cons b bs ih =>
    cases s with
    | nil => simp [lits, matchK]
    | cons x t =>
      simp only [lits, matchK, Bool.and_eq_true, beq_iff_eq, ih, List.cons_append,
        List.cons.injEq, List.isEmpty_cons, Bool.and_false, Bool.false_and]
      constructor
      · rintro ⟨hx, v, hv, hk⟩
        exact ⟨v, ⟨hx, hv⟩, hk⟩
      · rintro ⟨v, ⟨hx, hv⟩, hk⟩
        exact ⟨hx, v, hv, hk⟩

theorem searchFrom_eq (r : Regex) (st : Bool) (s : GoString) :
    searchFrom r st s = anySuffix (fun st1 s1 => matchK r st1 s1 (fun _ _ => true)) st s := by
  induction s generalizing st with
  | nil => rfl
  | cons b t ih => simp [searchFrom, anySuffix, ih]

/-- What an expression of the shape `^p1(?s:.*)p2|p3|p4` finds in a text. -/
theorem matchString_shape (p1 p2 p3 p4 m : GoString) :
    MatchString (alt (seq beginText (seq (lits p1) (seq anyStar (lits p2))))
      (alt (lits p3) (lits p4))) m = true ↔
    (p1 <+: m ∧ p2 <:+: m.drop p1.length) ∨ p3 <:+: m ∨ p4 <:+: m := by
  have hinfix : ∀ p : GoString, (∃ u v, m = u ++ v ∧
      matchK (lits p) (true && u.isEmpty) v (fun _ _ => true) = true) ↔ p <:+: m := by
    intro p
    constructor
    · rintro ⟨u, v, huv, hm⟩
      obtain ⟨w, hw, -⟩ := (matchK_lits p _ v _).mp hm
      exact ⟨u, w, by rw [huv, hw, List.append_assoc]⟩
    · rintro ⟨u, w, huw⟩
      refine ⟨u, p ++ w, by rw [← huw, List.append_assoc], ?_⟩
      exact (matchK_lits p _ _ _).mpr ⟨w, rfl, rfl⟩
  have hfirst : (∃ u v, m = u ++ v ∧
      matchK (seq beginText (seq (lits p1) (seq anyStar (lits p2)))) (true && u.isEmpty) v
        (fun _ _ => true) = true) ↔ (p1 <+: m ∧ p2 <:+: m.drop p1.length) := by
    constructor
    · rintro ⟨u, v, huv, hm⟩
      simp only [matchK, Bool.true_and, Bool.and_eq_true, List.isEmpty_iff] at hm
      obtain ⟨hu, hm⟩ := hm
      subst hu
      simp only [List.nil_append] at huv
      subst huv
      obtain ⟨w, hw, hk⟩ := (matchK_lits p1 _ _ _).mp hm
      obtain ⟨a, b, hab, hk2⟩ := (anySuffix_iff _ _ _).mp hk
      obtain ⟨c, hc, -⟩ := (matchK_lits p2 _ _ _).mp hk2
      refine ⟨⟨w, hw.symm⟩, a, c, ?_⟩
      rw [hw, List.drop_left, hab, hc, List.append_assoc]
    · rintro ⟨⟨w, hw⟩, a, c, hac⟩
      refine ⟨[], m, rfl, ?_⟩
      simp only [matchK, Bool.true_and, List.isEmpty_nil]
      refine (matchK_lits p1 _ _ _).mpr ⟨w, hw.symm, ?_⟩
      refine (anySuffix_iff _ _ _).mpr ⟨a, p2 ++ c, ?_, ?_⟩
      · rw [← hw, List.drop_left] at hac
        rw [← hac, List.append_assoc]
      · exact (matchK_lits p2 _ _ _).mpr ⟨c, rfl, rfl⟩
  rw [← hfirst, ← hinfix p3, ← hinfix p4]
  unfold MatchString
  rw [searchFrom_eq, anySuffix_iff]
  simp only [matchK, Bool.or_eq_true]
  constructor
  · rintro ⟨u, v, huv, h | h | h⟩
    · exact Or.inl ⟨u, v, huv, h⟩
    · exact Or.inr (Or.inl ⟨u, v, huv, h⟩)
    · exact Or.inr (Or.inr ⟨u, v, huv, h⟩)
  · rintro (⟨u, v, huv, h⟩ | ⟨u, v, huv, h⟩ | ⟨u, v, huv, h⟩)
    · exact ⟨u, v, huv, Or.inl h⟩
    · exact ⟨u, v, huv, Or.inr (Or.inl h)⟩
    · exact ⟨u, v, huv, Or.inr (Or.inr h)⟩

end Regex


/-- The pattern of the source, read as text: the message starts with
`call to ` and has ` was not expected` at or after byte 8, or has one of the
two other phrases anywhere. -/
theorem stdFatalErrorsRegexp_matches (m : GoString) :
    stdFatalErrorsRegexp.MatchString m = true ↔
      (ascii "call to " <+: m ∧ ascii " was not expected" <:+: m.drop 8)
      ∨ ascii "arguments do not match:" <:+: m
      ∨ ascii "could not match actual sql" <:+: m := by
  have h := Regex.matchString_shape (ascii "call to ") (ascii " was not expected")
    (ascii "arguments do not match:") (ascii "could not match actual sql") m
  have h8 : (ascii "call to ").length = 8 := by decide
  rw [h8] at h
  exact h

/-! ## The classifier -/

/-- C1: for an error whose underlying cause is a `*mysql.MySQLError` with
number `n`, `IsRetryableError` returns true exactly when `n` is one of the
eight allow-listed codes, and false for every other code. -/
theorem isRetryableError_mysql (err : Error) (n : Nat) (msg : GoString)
    (h : Cause err = some (.mysqlError n msg)) :
    (IsRetryableError err = true ↔
      n = tmysql.ErrUnknown ∨ n = tmysql.ErrLockDeadlock ∨ n = tmysql.ErrWriteConflictInTiDB
      ∨ n = tmysql.ErrPDServerTimeout ∨ n = tmysql.ErrTiKVServerTimeout
      ∨ n = tmysql.ErrTiKVServerBusy ∨ n = tmysql.ErrResolveLockTimeout
      ∨ n = tmysql.ErrRegionUnavailable)
    ∧ (¬ (n = tmysql.ErrUnknown ∨ n = tmysql.ErrLockDeadlock ∨ n = tmysql.ErrWriteConflictInTiDB
      ∨ n = tmysql.ErrPDServerTimeout ∨ n = tmysql.ErrTiKVServerTimeout
      ∨ n = tmysql.ErrTiKVServerBusy ∨ n = tmysql.ErrResolveLockTimeout
      ∨ n = tmysql.ErrRegionUnavailable) → IsRetryableError err = false) := by
  unfold IsRetryableError
  rw [h]
  simp only [GoError.asNetError, GoError.asMySQLError]
  constructor
  · simp
  · intro hn
    simp [hn]

/-- Witness of C1: a traced and annotated server error 9001 (PD server timeout). -/
theorem isRetryableError_mysql_witness :
    IsRetryableError (Annotate (Trace (some (.mysqlError 9001 (ascii "PD server timeout"))))
      (ascii "commit transaction failed")) = true := by
  have h := isRetryableError_mysql
    (Annotate (Trace (some (.mysqlError 9001 (ascii "PD server timeout"))))
      (ascii "commit transaction failed")) 9001 (ascii "PD server timeout") (by decide)
  exact h.1.mpr (by decide)

/-- C2: `IsRetryableError` returns false for nil and for every error whose
underlying cause is `context.Canceled`, `context.DeadlineExceeded` or `io.EOF`,
whatever layers wrap that cause. -/
theorem isRetryableError_sentinel :
    IsRetryableError none = false ∧
    ∀ (err : Error) (ws : List Wrapper),
      (Cause err = some .ctxCanceled ∨ Cause err = some .ctxDeadlineExceeded
        ∨ Cause err = some .ioEOF) →
      IsRetryableError err = false ∧ IsRetryableError (wrapAll ws err) = false := by
  refine ⟨rfl, ?_⟩
  intro err ws h
  have h1 : IsRetryableError err = false := by
    unfold IsRetryableError
    rcases h with h | h | h <;> rw [h]
  exact ⟨h1, by rw [IsRetryableError_congr _ _ (Cause_wrapAll ws err), h1]⟩

/-- Witness of C2: `context.Canceled` under a trace and an annotation. -/
theorem isRetryableError_sentinel_witness :
    IsRetryableError (Annotate (Trace (some .ctxCanceled)) (ascii "begin transaction failed"))
      = false :=
  (isRetryableError_sentinel.2
    (Annotate (Trace (some .ctxCanceled)) (ascii "begin transaction failed")) []
    (Or.inl (by decide))).1

/-- C3 as stated fails: `context.DeadlineExceeded` is its own cause, satisfies
`net.Error` with `Timeout() = true`, and is classified as not retryable. -/
theorem isRetryableError_netTimeout_counterexample :
    ¬ (∀ (err : Error) (c : GoError), Cause err = some c → c.asNetError = some true →
        IsRetryableError err = true) := by
  intro h
  have := h (some .ctxDeadlineExceeded) .ctxDeadlineExceeded (by decide) (by decide)
  exact absurd this (by decide)

/-- C3, amended: for every error whose underlying cause satisfies `net.Error`
with `Timeout() = true` and is not the sentinel `context.DeadlineExceeded`,
`IsRetryableError` returns true. -/
theorem isRetryableError_netTimeout (err : Error) (c : GoError)
    (hc : Cause err = some c) (ht : c.asNetError = some true)
    (hd : c ≠ .ctxDeadlineExceeded) : IsRetryableError err = true := by
  unfold IsRetryableError
  rw [hc]
  cases c <;> simp_all [GoError.asNetError]

/-- Witness of C3 amended: a traced network timeout. -/
theorem isRetryableError_netTimeout_witness :
    IsRetryableError (Trace (some (.netError true none (ascii "i/o timeout")))) = true :=
  isRetryableError_netTimeout (Trace (some (.netError true none (ascii "i/o timeout"))))
    (.netError true none (ascii "i/o timeout")) (by decide) (by decide) (by decide)

/-- C4: for an error whose underlying cause is no sentinel, no `net.Error` and
no `*mysql.MySQLError`, and whose status code `k` is not `Unknown`,
`IsRetryableError` returns true exactly when `k` is one of the nine retryable
codes; it returns false for `OK`, `Canceled`, `InvalidArgument`,
`FailedPrecondition`, `Unimplemented`, `Internal` and `Unauthenticated`. -/
theorem isRetryableError_status (err : Error) (c : GoError) (k : Nat)
    (hc : Cause err = some c) (hs : c.isSentinel = false) (hn : c.asNetError = none)
    (hm : c.asMySQLError = none) (hk : c.statusCode = k) (hu : k ≠ codes.Unknown) :
    (IsRetryableError err = true ↔
      k = codes.DeadlineExceeded ∨ k = codes.NotFound ∨ k = codes.AlreadyExists
      ∨ k = codes.PermissionDenied ∨ k = codes.ResourceExhausted ∨ k = codes.Aborted
      ∨ k = codes.OutOfRange ∨ k = codes.Unavailable ∨ k = codes.DataLoss)
    ∧ (k = codes.OK ∨ k = codes.Canceled ∨ k = codes.InvalidArgument
      ∨ k = codes.FailedPrecondition ∨ k = codes.Unimplemented ∨ k = codes.Internal
      ∨ k = codes.Unauthenticated → IsRetryableError err = false) := by
  have key : IsRetryableError err =
      decide (k = codes.DeadlineExceeded ∨ k = codes.NotFound ∨ k = codes.AlreadyExists
      ∨ k = codes.PermissionDenied ∨ k = codes.ResourceExhausted ∨ k = codes.Aborted
      ∨ k = codes.OutOfRange ∨ k = codes.Unavailable ∨ k = codes.DataLoss) := by
    unfold IsRetryableError
    rw [hc]
    cases c <;>
      simp_all [GoError.asNetError, GoError.asMySQLError, GoError.statusCode,
        GoError.isSentinel]
  rw [key]
  constructor
  · simp
  · intro h
    rcases h with h | h | h | h | h | h | h <;> subst h <;> decide

/-- Witness of C4: a status error with code `Unavailable` is retryable. -/
theorem isRetryableError_status_witness :
    IsRetryableError (some (.grpcStatus codes.Unavailable (ascii "transport is closing")))
      = true :=
  (isRetryableError_status (some (.grpcStatus codes.Unavailable (ascii "transport is closing")))
    (.grpcStatus codes.Unavailable (ascii "transport is closing")) codes.Unavailable
    (by decide) (by decide) (by decide) (by decide) (by decide) (by decide)).1.mpr
    (by decide)

/-- C5: for an error with status `Unknown` whose underlying cause is no
sentinel, no `net.Error` and no `*mysql.MySQLError`, `IsRetryableError` returns
false exactly when the cause has the type of `errors.New` and its message
starts with `call to ` and contains ` was not expected` at or after byte 8, or
contains `arguments do not match:`, or contains `could not match actual sql`;
in every other case it returns true. -/
theorem isRetryableError_unknown (err : Error) (c : GoError)
    (hc : Cause err = some c) (hs : c.isSentinel = false) (hn : c.asNetError = none)
    (hm : c.asMySQLError = none) (hu : c.statusCode = codes.Unknown) :
    (IsRetryableError err = false ↔
      c.isStdErrorType = true ∧
        ((ascii "call to " <+: c.message ∧ ascii " was not expected" <:+: c.message.drop 8)
        ∨ ascii "arguments do not match:" <:+: c.message
        ∨ ascii "could not match actual sql" <:+: c.message))
    ∧ (¬ (c.isStdErrorType = true ∧
        ((ascii "call to " <+: c.message ∧ ascii " was not expected" <:+: c.message.drop 8)
        ∨ ascii "arguments do not match:" <:+: c.message
        ∨ ascii "could not match actual sql" <:+: c.message)) →
      IsRetryableError err = true) := by
  have key : IsRetryableError err =
      !(c.isStdErrorType && stdFatalErrorsRegexp.MatchString c.message) := by
    unfold IsRetryableError
    rw [hc]
    cases c <;>
      simp_all [GoError.asNetError, GoError.asMySQLError, GoError.statusCode,
        GoError.isSentinel, GoError.isStdErrorType, codes.Unknown, codes.DeadlineExceeded,
        codes.NotFound, codes.AlreadyExists, codes.PermissionDenied, codes.ResourceExhausted,
        codes.Aborted, codes.OutOfRange, codes.Unavailable, codes.DataLoss]
  rw [key, ← stdFatalErrorsRegexp_matches]
  constructor
  · simp
  · intro h
    cases ht : c.isStdErrorType <;> cases hr : stdFatalErrorsRegexp.MatchString c.message <;>
      simp_all

/-- Witness of C5: an `errors.New` value with an injected sqlmock message is
not retried, under a trace layer too. -/
theorem isRetryableError_unknown_witness :
    IsRetryableError
      (Trace (some (.stdError (ascii "call to Query SELECT 1 was not expected")))) = false :=
  (isRetryableError_unknown
    (Trace (some (.stdError (ascii "call to Query SELECT 1 was not expected"))))
    (.stdError (ascii "call to Query SELECT 1 was not expected"))
    (by decide) (by decide) (by decide) (by decide) (by decide)).1.mpr
    ⟨by decide, Or.inl ⟨by decide, by decide⟩⟩

/-- C6: classification depends only on the underlying cause: for every error
`e` and every stack of `errors.Trace`, `errors.Annotate` and `errors.Annotatef`
wrappers, `IsRetryableError (wrap e) = IsRetryableError e`. -/
theorem isRetryableError_wrapAll (ws : List Wrapper) (e : Error) :
    IsRetryableError (wrapAll ws e) = IsRetryableError e :=
  IsRetryableError_congr _ _ (Cause_wrapAll ws e)


/-! ## The retry loop -/

/-- The loop unrolled over its three iterations. -/
theorem perform_unroll {σ : Type} (L : Logger) (p : GoString) (action : σ → Error × σ) (s : σ) :
    perform L p action s =
      if stops (nthCall action s 0).1 then
        ⟨Annotatef (nthCall action s 0).1 (p ++ ascii " failed"), (nthCall action s 0).2,
          [.invoke 0]⟩
      else if stops (nthCall action s 1).1 then
        ⟨Annotatef (nthCall action s 1).1 (p ++ ascii " failed"), (nthCall action s 1).2,
          [.invoke 0,
           .warn (L ++ [.retryCnt 0]) (p ++ ascii " failed but going to try again")
             (nthCall action s 0).1,
           .warn (L ++ [.retryCnt 1]) (p ++ ascii " retry start") none,
           .sleep retryTimeout, .invoke 1]⟩
      else
        ⟨Annotatef (nthCall action s 2).1 (p ++ ascii " failed"), (nthCall action s 2).2,
          [.invoke 0,
           .warn (L ++ [.retryCnt 0]) (p ++ ascii " failed but going to try again")
             (nthCall action s 0).1,
           .warn (L ++ [.retryCnt 1]) (p ++ ascii " retry start") none,
           .sleep retryTimeout, .invoke 1,
           .warn (L ++ [.retryCnt 1]) (p ++ ascii " failed but going to try again")
             (nthCall action s 1).1,
           .warn (L ++ [.retryCnt 2]) (p ++ ascii " retry start") none,
           .sleep retryTimeout, .invoke 2]
          ++ (if IsRetryableError (nthCall action s 2).1 then
                [.warn (L ++ [.retryCnt 2]) (p ++ ascii " failed but going to try again")
                  (nthCall action s 2).1]
              else [])⟩ := by
  have rn : IsRetryableError none = false := rfl
  unfold perform
  simp only [defaultMaxRetry, performLoop, nthCall, stops]
  rcases h0 : action s with ⟨e0, s0⟩
  cases e0 with
  | none => simp [Annotatef]
  | some e0 =>
    by_cases r0 : IsRetryableError (some e0) = true
    · rcases h1 : action s0 with ⟨e1, s1⟩
      cases e1 with
      | none => simp [r0, h1, Annotatef]
      | some e1 =>
        by_cases r1 : IsRetryableError (some e1) = true
        · rcases h2 : action s1 with ⟨e2, s2⟩
          cases e2 with
          | none => simp [r0, r1, h1, h2, Annotatef, rn]
          | some e2 =>
            by_cases r2 : IsRetryableError (some e2) = true
            · simp [r0, r1, r2, h1, h2]
            · simp [r0, r1, r2, h1, h2]
        · simp [r0, r1, h1]
    · simp [r0]


theorem alwaysRetryable_nthCall {σ : Type} (action : σ → Error × σ) (h : AlwaysRetryable action)
    (s : σ) (j : Nat) :
    ∃ e, (nthCall action s j).1 = some e ∧ IsRetryableError (some e) = true := by
  cases j with
  | zero => exact h s
  | succ j => exact h _

theorem stops_of_retryable (e : Error) (h : IsRetryableError e = true) : stops e = false := by
  cases e with
  | none => exact absurd h (by decide)
  | some e => simp [stops, h]

/-- The generic part of C7, for any action handed to the loop. -/
theorem perform_alwaysRetryable {σ : Type} (L : Logger) (purpose : GoString)
    (action : σ → Error × σ) (s : σ) (h : AlwaysRetryable action) :
    (perform L purpose action s).attempts = 3
    ∧ (perform L purpose action s).state = (nthCall action s 2).2
    ∧ (perform L purpose action s).err
        = Annotatef (nthCall action s 2).1 (purpose ++ ascii " failed")
    ∧ ∃ e3, (nthCall action s 2).1 = some e3
        ∧ ((perform L purpose action s).err
              = some (.withStack (.withMessage (purpose ++ ascii " failed") e3))
            ∨ (perform L purpose action s).err
              = some (.withMessage (purpose ++ ascii " failed") e3))
        ∧ Cause (perform L purpose action s).err = some e3.cause := by
  obtain ⟨e0, h0, r0⟩ := alwaysRetryable_nthCall action h s 0
  obtain ⟨e1, h1, r1⟩ := alwaysRetryable_nthCall action h s 1
  obtain ⟨e2, h2, r2⟩ := alwaysRetryable_nthCall action h s 2
  rw [perform_unroll]
  rw [h0, h1, h2, stops_of_retryable _ r0, stops_of_retryable _ r1, r2]
  simp only [if_true, Bool.false_eq_true, if_false]
  refine ⟨by simp [Outcome.attempts], trivial, trivial, e2, rfl, ?_, ?_⟩
  · by_cases hs : e2.hasStack <;> simp [Annotatef, hs]
  · rw [Cause_Annotatef]
    rfl


theorem Trace_retryable (e : GoError) (h : IsRetryableError (some e) = true) :
    ∃ e1, Trace (some e) = some e1 ∧ IsRetryableError (some e1) = true := by
  have hc := IsRetryableError_congr _ _ (Cause_Trace (some e))
  by_cases hs : e.hasStack
  · exact ⟨e, by simp [Trace, hs], h⟩
  · refine ⟨.withStack e, by simp [Trace, hs], ?_⟩
    rw [← h, ← hc]
    simp [Trace, hs]

theorem execAttempt_alwaysRetryable {σ : Type} (t : SQLWithRetry σ) (query : GoString)
    (args : List GoString) (h : AlwaysRetryable (t.DB.ExecContext query args)) :
    AlwaysRetryable (execAttempt t query args) := by
  intro s
  obtain ⟨e, he, hr⟩ := h s
  obtain ⟨e1, h1, hr1⟩ := Trace_retryable e hr
  exact ⟨e1, by simp [execAttempt, he, h1], hr1⟩

/-- An attempt of `Transact` whose transaction begins and whose action fails:
the attempt returns the action's error and calls the action once. -/
theorem transactAttempt_action_fails {σ : Type} (t : SQLWithRetry σ) (purpose : GoString)
    (action : σ → Error × σ) (w : σ × List TxCall) (e : GoError)
    (hb : (t.DB.BeginTx w.1).1 = none) (ha : (action (t.DB.BeginTx w.1).2).1 = some e) :
    (transactAttempt t purpose action w).1 = some e
    ∧ actionCalls (transactAttempt t purpose action w).2.2 = actionCalls w.2 + 1 := by
  unfold transactAttempt
  simp only [hb, ha]
  refine ⟨trivial, ?_⟩
  cases (t.DB.Rollback (action (t.DB.BeginTx w.1).2).2).1 <;>
    simp [actionCalls, List.count_append, List.count_cons]

theorem transactAttempt_alwaysRetryable {σ : Type} (t : SQLWithRetry σ) (purpose : GoString)
    (action : σ → Error × σ) (hb : ∀ s, (t.DB.BeginTx s).1 = none)
    (ha : AlwaysRetryable action) : AlwaysRetryable (transactAttempt t purpose action) := by
  intro w
  obtain ⟨e, he, hr⟩ := ha (t.DB.BeginTx w.1).2
  exact ⟨e, (transactAttempt_action_fails t purpose action w e (hb _) he).1, hr⟩

/-- C7: for every purpose label and every action that fails with a retryable
error on every invocation, the retry loop invokes the action exactly 3 times
(`defaultMaxRetry`, the first attempt included) and returns a non-nil error
that wraps the third attempt's error under the message `<purpose> failed`; the
same holds for `QueryRow`, `Exec` (whose attempt traces the error) and
`Transact` (whose action is then called exactly 3 times). -/
theorem perform_exhausts_retries {σ : Type} (t : SQLWithRetry σ) (purpose : GoString) :
    (∀ (L : Logger) (action : σ → Error × σ) (s : σ), AlwaysRetryable action →
      (perform L purpose action s).attempts = defaultMaxRetry
      ∧ (perform L purpose action s).state = (nthCall action s 2).2
      ∧ ∃ e3, (nthCall action s 2).1 = some e3
          ∧ ((perform L purpose action s).err
                = some (.withStack (.withMessage (purpose ++ ascii " failed") e3))
              ∨ (perform L purpose action s).err
                = some (.withMessage (purpose ++ ascii " failed") e3))
          ∧ Cause (perform L purpose action s).err = some e3.cause)
    ∧ (∀ (query : GoString) (s : σ), AlwaysRetryable (t.DB.QueryRowScan query) →
      (QueryRow t purpose query s).attempts = defaultMaxRetry
      ∧ (QueryRow t purpose query s).err
          = Annotatef (nthCall (t.DB.QueryRowScan query) s 2).1 (purpose ++ ascii " failed")
      ∧ (QueryRow t purpose query s).err ≠ none)
    ∧ (∀ (query : GoString) (args : List GoString) (s : σ),
      AlwaysRetryable (t.DB.ExecContext query args) →
      (Exec t purpose query args s).attempts = defaultMaxRetry
      ∧ (Exec t purpose query args s).err
          = Annotatef (Trace (nthCall (t.DB.ExecContext query args) s 2).1)
              (purpose ++ ascii " failed")
      ∧ (Exec t purpose query args s).err ≠ none)
    ∧ (∀ (action : σ → Error × σ) (s : σ), (∀ s1, (t.DB.BeginTx s1).1 = none) →
      AlwaysRetryable action →
      (Transact t purpose action s).attempts = defaultMaxRetry
      ∧ actionCalls (Transact t purpose action s).state.2 = defaultMaxRetry
      ∧ ∃ s3 e3, (action s3).1 = some e3
          ∧ (Transact t purpose action s).err
              = Annotatef (some e3) (purpose ++ ascii " failed")
          ∧ Cause (Transact t purpose action s).err = some e3.cause) := by
  refine ⟨?_, ?_, ?_, ?_⟩
  · intro L action s h
    obtain ⟨h1, h2, -, h4⟩ := perform_alwaysRetryable L purpose action s h
    exact ⟨h1, h2, h4⟩
  · intro query s h
    unfold QueryRow
    obtain ⟨h1, -, h3, e3, he3, -, -⟩ := perform_alwaysRetryable
      (if !t.HideQueryLog then t.Logger ++ [LogField.query query] else t.Logger)
      purpose (fun s1 => t.DB.QueryRowScan query s1) s h
    refine ⟨h1, h3, ?_⟩
    rw [h3]
    change Annotatef (nthCall (t.DB.QueryRowScan query) s 2).1 _ ≠ none
    rw [show (nthCall (t.DB.QueryRowScan query) s 2).1 = some e3 from he3]
    intro hn
    have := Annotatef_isSome e3 (purpose ++ ascii " failed")
    simp [hn] at this
  · intro query args s h
    unfold Exec
    obtain ⟨h1, -, h3, e3, he3, -, -⟩ := perform_alwaysRetryable
      (if !t.HideQueryLog then t.Logger ++ [LogField.query query, LogField.args args]
        else t.Logger)
      purpose (execAttempt t query args) s (execAttempt_alwaysRetryable t query args h)
    have hx : (nthCall (execAttempt t query args) s 2).1
        = Trace (nthCall (t.DB.ExecContext query args) s 2).1 := by
      simp [nthCall, execAttempt]
    refine ⟨h1, by rw [h3, hx], ?_⟩
    rw [h3, he3]
    intro hn
    have := Annotatef_isSome e3 (purpose ++ ascii " failed")
    simp [hn] at this
  · intro action s hb ha
    have hA := transactAttempt_alwaysRetryable t purpose action hb ha
    unfold Transact
    obtain ⟨h1, h2, h3, e3, he3, -, h6⟩ := perform_alwaysRetryable t.Logger purpose
      (transactAttempt t purpose action) (s, []) hA
    refine ⟨h1, ?_, ?_⟩
    · rw [h2]
      simp only [nthCall]
      obtain ⟨a0, ha0, -⟩ := ha (t.DB.BeginTx (s, ([] : List TxCall)).1).2
      have c0 := (transactAttempt_action_fails t purpose action (s, []) a0 (hb _) ha0).2
      obtain ⟨a1, ha1, -⟩ :=
        ha (t.DB.BeginTx (transactAttempt t purpose action (s, [])).2.1).2
      have c1 := (transactAttempt_action_fails t purpose action _ a1 (hb _) ha1).2
      obtain ⟨a2, ha2, -⟩ := ha (t.DB.BeginTx
        (transactAttempt t purpose action (transactAttempt t purpose action (s, [])).2).2.1).2
      have c2 := (transactAttempt_action_fails t purpose action _ a2 (hb _) ha2).2
      rw [c2, c1, c0]
      rfl
    · obtain ⟨a2, ha2, -⟩ := ha (t.DB.BeginTx
        (nthCall (transactAttempt t purpose action) (s, []) 1).2.1).2
      have e2 := (transactAttempt_action_fails t purpose action _ a2 (hb _) ha2).1
      have hx : (nthCall (transactAttempt t purpose action) (s, []) 2).1 = some a2 := e2
      refine ⟨_, a2, ha2, by rw [h3, hx], ?_⟩
      rw [h6]
      rw [hx] at he3
      cases he3
      rfl


/-- Witness of C7: an action that always fails with "server is busy". -/
theorem perform_exhausts_retries_witness :
    AlwaysRetryable busyAction
    ∧ (perform [] (ascii "switch mode") busyAction 0).attempts = 3
    ∧ (perform [] (ascii "switch mode") busyAction 0).state = 3 := by
  have hA : AlwaysRetryable busyAction := fun _ => ⟨busyError, rfl, by decide⟩
  have h := (perform_exhausts_retries busyRetry (ascii "switch mode")).1 [] busyAction 0 hA
  exact ⟨hA, h.1, h.2.1⟩

theorem Annotatef_eq_none (e : Error) (m : GoString) : Annotatef e m = none ↔ e = none := by
  cases e with
  | none => simp [Annotatef]
  | some e => by_cases h : e.hasStack <;> simp [Annotatef, h]

theorem ne_none_of_not_stops (e : Error) (h : stops e = false) : e ≠ none := by
  intro hn
  rw [hn] at h
  exact absurd h (by decide)

/-- The counting part of the first-stop property of the loop. -/
theorem perform_first_stop_core {σ : Type} (L : Logger) (purpose : GoString)
    (action : σ → Error × σ) (s : σ) (k : Nat) (hk : 1 ≤ k)
    (hstop : stops (nthCall action s (k - 1)).1 = true)
    (hfirst : ∀ j, j < k - 1 → stops (nthCall action s j).1 = false) :
    (perform L purpose action s).attempts = min k 3
    ∧ ((perform L purpose action s).err = none ↔
        k ≤ 3 ∧ (nthCall action s (k - 1)).1 = none)
    ∧ (∀ e, k ≤ 3 → (nthCall action s (k - 1)).1 = some e →
        (perform L purpose action s).attempts = k
        ∧ (perform L purpose action s).state = (nthCall action s (k - 1)).2
        ∧ (perform L purpose action s).err = Annotatef (some e) (purpose ++ ascii " failed")
        ∧ (perform L purpose action s).err ≠ none) := by
  rw [perform_unroll]
  obtain rfl | rfl | rfl | h4 : k = 1 ∨ k = 2 ∨ k = 3 ∨ 4 ≤ k := by omega
  · have hs : stops (nthCall action s 0).1 = true := hstop
    rw [hs]
    simp only [if_true]
    refine ⟨rfl, by simp [Annotatef_eq_none], ?_⟩
    intro e _ he
    have he0 : (nthCall action s 0).1 = some e := he
    rw [he0]
    exact ⟨rfl, trivial, rfl, by simp [Annotatef_eq_none]⟩
  · have h0 := hfirst 0 (by decide)
    have hs : stops (nthCall action s 1).1 = true := hstop
    rw [h0, hs]
    simp only [if_true, Bool.false_eq_true, if_false]
    refine ⟨by simp [Outcome.attempts], by simp [Annotatef_eq_none], ?_⟩
    intro e _ he
    have he1 : (nthCall action s 1).1 = some e := he
    rw [he1]
    exact ⟨by simp [Outcome.attempts], trivial, rfl, by simp [Annotatef_eq_none]⟩
  · have h0 := hfirst 0 (by decide)
    have h1 := hfirst 1 (by decide)
    rw [h0, h1]
    simp only [Bool.false_eq_true, if_false]
    refine ⟨by simp [Outcome.attempts], by simp [Annotatef_eq_none], ?_⟩
    intro e _ he
    have he2 : (nthCall action s 2).1 = some e := he
    rw [he2]
    exact ⟨by simp [Outcome.attempts], trivial, rfl, by simp [Annotatef_eq_none]⟩
  · have h0 := hfirst 0 (by omega)
    have h1 := hfirst 1 (by omega)
    have h2 := hfirst 2 (by omega)
    rw [h0, h1]
    simp only [Bool.false_eq_true, if_false]
    refine ⟨?_, ?_, ?_⟩
    · have : min k 3 = 3 := by omega
      rw [this]
      simp [Outcome.attempts]
    · have hne := ne_none_of_not_stops _ h2
      constructor
      · intro h
        exact absurd ((Annotatef_eq_none _ _).mp h) hne
      · intro h
        omega
    · intro e hle
      omega

/-- C9: in every run of the retry loop there is no sleep before the first
attempt and exactly one sleep of `retryTimeout` (3 seconds) directly before
each later attempt: a run with `n` attempts (1 ≤ n ≤ 3) sleeps `n - 1` times,
`3 * (n - 1)` seconds in all and at most 6 seconds, every sleep having the
same duration whatever the attempt index and the error. -/
theorem perform_backoff {σ : Type} (L : Logger) (purpose : GoString)
    (action : σ → Error × σ) (s : σ) :
    1 ≤ (perform L purpose action s).attempts
    ∧ (perform L purpose action s).attempts ≤ defaultMaxRetry
    ∧ (perform L purpose action s).steps
        = expectedSteps (perform L purpose action s).attempts
    ∧ (perform L purpose action s).sleeps
        = List.replicate ((perform L purpose action s).attempts - 1) retryTimeout
    ∧ (perform L purpose action s).sleeps.length = (perform L purpose action s).attempts - 1
    ∧ (perform L purpose action s).sleeps.sum
        = 3 * Second * ((perform L purpose action s).attempts - 1)
    ∧ (perform L purpose action s).sleeps.sum ≤ 6 * Second
    ∧ retryTimeout = 3 * Second := by
  have e1 : expectedSteps 1 = [.invoke 0] := by decide
  have e2 : expectedSteps 2 = [.invoke 0, .sleep retryTimeout, .invoke 1] := by decide
  have e3 : expectedSteps 3 = [.invoke 0, .sleep retryTimeout, .invoke 1,
      .sleep retryTimeout, .invoke 2] := by decide
  rw [perform_unroll]
  by_cases h0 : stops (nthCall action s 0).1 = true
  · rw [h0]
    simp only [if_true]
    simp [Outcome.attempts, Outcome.steps, Outcome.sleeps, e1, defaultMaxRetry, retryTimeout]
  · by_cases h1 : stops (nthCall action s 1).1 = true
    · rw [Bool.not_eq_true] at h0
      rw [h0, h1]
      simp only [if_true, Bool.false_eq_true, if_false]
      simp [Outcome.attempts, Outcome.steps, Outcome.sleeps, e2, defaultMaxRetry, retryTimeout,
        Second]
    · rw [Bool.not_eq_true] at h0 h1
      rw [h0, h1]
      simp only [Bool.false_eq_true, if_false]
      by_cases h2 : IsRetryableError (nthCall action s 2).1 = true
      · simp [h2, Outcome.attempts, Outcome.steps, Outcome.sleeps, e3, defaultMaxRetry,
          retryTimeout, Second]
      · simp [h2, Outcome.attempts, Outcome.steps, Outcome.sleeps, e3, defaultMaxRetry,
          retryTimeout, Second]


theorem not_retryable_of_canceled (e : GoError)
    (h : e.cause = .ctxCanceled ∨ e.cause = .ctxDeadlineExceeded) :
    IsRetryableError (some e) = false := by
  unfold IsRetryableError
  simp only [Cause, Option.map_some']
  rcases h with h | h <;> rw [h]

theorem stops_of_canceled (e : GoError)
    (h : e.cause = .ctxCanceled ∨ e.cause = .ctxDeadlineExceeded) :
    stops (some e) = true := by
  simp [stops, not_retryable_of_canceled e h]

/-- The loop part of C10, for any action handed to the loop. -/
theorem perform_canceled {σ : Type} (L : Logger) (purpose : GoString)
    (action : σ → Error × σ) (s : σ) (j : Nat) (e : GoError) (hj : j < defaultMaxRetry)
    (hretry : ∀ i, i < j → IsRetryableError (nthCall action s i).1 = true)
    (hfail : (nthCall action s j).1 = some e)
    (hcause : e.cause = .ctxCanceled ∨ e.cause = .ctxDeadlineExceeded) :
    (perform L purpose action s).attempts = j + 1
    ∧ (perform L purpose action s).sleeps.length = j
    ∧ (perform L purpose action s).state = (nthCall action s j).2
    ∧ (perform L purpose action s).err = Annotatef (some e) (purpose ++ ascii " failed")
    ∧ Cause (perform L purpose action s).err = some e.cause := by
  have hst := stops_of_canceled e hcause
  have hC : Cause (Annotatef (some e) (purpose ++ ascii " failed")) = some e.cause := by
    rw [Cause_Annotatef]
    rfl
  rw [perform_unroll]
  obtain rfl | rfl | rfl : j = 0 ∨ j = 1 ∨ j = 2 := by
    simp only [defaultMaxRetry] at hj
    omega
  · rw [hfail, hst]
    simp only [if_true]
    exact ⟨rfl, rfl, trivial, trivial, hC⟩
  · have h0 := stops_of_retryable _ (hretry 0 (by decide))
    rw [h0, hfail, hst]
    simp only [if_true, Bool.false_eq_true, if_false]
    exact ⟨by simp [Outcome.attempts], by simp [Outcome.sleeps], trivial, trivial, hC⟩
  · have h0 := stops_of_retryable _ (hretry 0 (by decide))
    have h1 := stops_of_retryable _ (hretry 1 (by decide))
    rw [h0, h1, hfail, not_retryable_of_canceled e hcause]
    simp only [Bool.false_eq_true, if_false]
    exact ⟨by simp [Outcome.attempts], by simp [Outcome.sleeps], trivial, trivial, hC⟩

/-- C10: when an attempt fails with an error whose underlying cause is
`context.Canceled` or `context.DeadlineExceeded`, the retry loop makes no
further attempt and no further sleep, and the error it returns has that
sentinel as its underlying cause; `QueryRow`, `Exec` and `Transact` run this
loop, and their attempts keep the cause of the failing database call: `Exec`
traces it, `Transact` annotates a begin or commit failure and returns the
action's error as it is. -/
theorem canceled_stops_retry {σ : Type} (t : SQLWithRetry σ) (purpose : GoString) :
    (∀ (L : Logger) (action : σ → Error × σ) (s : σ) (j : Nat) (e : GoError),
      j < defaultMaxRetry →
      (∀ i, i < j → IsRetryableError (nthCall action s i).1 = true) →
      (nthCall action s j).1 = some e →
      (e.cause = .ctxCanceled ∨ e.cause = .ctxDeadlineExceeded) →
      (perform L purpose action s).attempts = j + 1
      ∧ (perform L purpose action s).sleeps.length = j
      ∧ (perform L purpose action s).state = (nthCall action s j).2
      ∧ (perform L purpose action s).err = Annotatef (some e) (purpose ++ ascii " failed")
      ∧ Cause (perform L purpose action s).err = some e.cause)
    ∧ (∀ (query : GoString) (s : σ),
      QueryRow t purpose query s
        = perform (if !t.HideQueryLog then t.Logger ++ [LogField.query query] else t.Logger)
            purpose (t.DB.QueryRowScan query) s)
    ∧ (∀ (query : GoString) (args : List GoString) (s : σ),
      Exec t purpose query args s
        = perform (if !t.HideQueryLog then
              t.Logger ++ [LogField.query query, LogField.args args] else t.Logger)
            purpose (execAttempt t query args) s
      ∧ Cause (execAttempt t query args s).1 = Cause (t.DB.ExecContext query args s).1)
    ∧ (∀ (action : σ → Error × σ) (s : σ),
      Transact t purpose action s
        = perform t.Logger purpose (transactAttempt t purpose action) (s, []))
    ∧ (∀ (action : σ → Error × σ) (w : σ × List TxCall) (e : GoError),
      (t.DB.BeginTx w.1).1 = some e →
      Cause (transactAttempt t purpose action w).1 = some e.cause)
    ∧ (∀ (action : σ → Error × σ) (w : σ × List TxCall) (e : GoError),
      (t.DB.BeginTx w.1).1 = none → (action (t.DB.BeginTx w.1).2).1 = some e →
      (transactAttempt t purpose action w).1 = some e)
    ∧ (∀ (action : σ → Error × σ) (w : σ × List TxCall) (e : GoError),
      (t.DB.BeginTx w.1).1 = none → (action (t.DB.BeginTx w.1).2).1 = none →
      (t.DB.Commit (action (t.DB.BeginTx w.1).2).2).1 = some e →
      Cause (transactAttempt t purpose action w).1 = some e.cause) := by
  refine ⟨?_, ?_, ?_, ?_, ?_, ?_, ?_⟩
  · intro L action s j e hj hretry hfail hcause
    exact perform_canceled L purpose action s j e hj hretry hfail hcause
  · intro query s
    rfl
  · intro query args s
    exact ⟨rfl, Cause_Trace _⟩
  · intro action s
    rfl
  · intro action w e hb
    unfold transactAttempt
    simp only [hb]
    rw [Cause_Annotate]
    rfl
  · intro action w e hb ha
    exact (transactAttempt_action_fails t purpose action w e hb ha).1
  · intro action w e hb ha hc
    unfold transactAttempt
    simp only [hb, ha, hc]
    rw [Cause_Annotate]
    rfl

/-- Witness of C10: the second attempt fails with an annotated
`context.Canceled`; the loop stops after two calls and one sleep. -/
theorem canceled_stops_retry_witness :
    (perform [] (ascii "switch mode") busyThenCanceledAction 0).attempts = 2
    ∧ (perform [] (ascii "switch mode") busyThenCanceledAction 0).sleeps.length = 1
    ∧ Cause (perform [] (ascii "switch mode") busyThenCanceledAction 0).err
        = some .ctxCanceled := by
  have h := (canceled_stops_retry busyRetry (ascii "switch mode")).1 []
    busyThenCanceledAction 0 1
    (.withStack (.withMessage (ascii "begin transaction failed") .ctxCanceled))
    (by decide)
    (by
      intro i hi
      have : i = 0 := by omega
      subst this
      decide)
    (by decide) (Or.inl (by decide))
  exact ⟨h.1, h.2.1, h.2.2.2.2⟩


/-! ## `Transact` -/

theorem ne_Annotatef_self (e : GoError) (m : GoString) : Annotatef (some e) m ≠ some e := by
  intro h
  by_cases hs : e.hasStack
  · simp only [Annotatef, hs, if_true, Option.some.injEq] at h
    have := congrArg sizeOf h
    simp at this
  · simp only [Annotatef, hs, Bool.false_eq_true, if_false, Option.some.injEq] at h
    have := congrArg sizeOf h
    simp at this
    omega

/-- C11 as stated fails: with an action that fails with the non-retryable
`duplicateError` (and a rollback that fails too), `Transact` does not return
the action's error itself but that error under the annotation of the retry loop. -/
theorem transact_action_error_counterexample :
    (transactAttempt rollbackFailsRetry (ascii "import") duplicateAction (0, [])).1
      = some duplicateError
    ∧ (Transact rollbackFailsRetry (ascii "import") duplicateAction 0).err
      ≠ some duplicateError
    ∧ (Transact rollbackFailsRetry (ascii "import") duplicateAction 0).err
      = some (.withStack (.withMessage (ascii "import failed") duplicateError)) := by
  decide

/-- C11, amended: when the action fails with `e`, the attempt of `Transact`
returns `e` itself whatever the rollback returns: not the rollback error, and
with no annotation. `Transact` returns what the retry loop makes of it: when
that attempt is the first and `e` is not retryable, `e` annotated
`<purpose> failed`, with the underlying cause of `e`. -/
theorem transact_action_error {σ : Type} (t : SQLWithRetry σ) (purpose : GoString)
    (action : σ → Error × σ) :
    (∀ (w : σ × List TxCall) (e : GoError),
      (t.DB.BeginTx w.1).1 = none → (action (t.DB.BeginTx w.1).2).1 = some e →
      (transactAttempt t purpose action w).1 = some e)
    ∧ (∀ (s : σ) (e : GoError),
      (t.DB.BeginTx s).1 = none → (action (t.DB.BeginTx s).2).1 = some e →
      IsRetryableError (some e) = false →
      (Transact t purpose action s).err = Annotatef (some e) (purpose ++ ascii " failed")
      ∧ (Transact t purpose action s).err ≠ some e
      ∧ Cause (Transact t purpose action s).err = some e.cause
      ∧ (Transact t purpose action s).attempts = 1) := by
  refine ⟨?_, ?_⟩
  · intro w e hb ha
    exact (transactAttempt_action_fails t purpose action w e hb ha).1
  · intro s e hb ha hr
    have h0 : (nthCall (transactAttempt t purpose action) (s, []) 0).1 = some e :=
      (transactAttempt_action_fails t purpose action (s, []) e hb ha).1
    have hst : stops (some e) = true := by simp [stops, hr]
    unfold Transact
    rw [perform_unroll, h0, hst]
    simp only [if_true]
    refine ⟨trivial, ne_Annotatef_self e _, ?_, rfl⟩
    rw [Cause_Annotatef]
    rfl

/-- Witness of C11 amended: the rollback fails, the attempt still returns the
action's error. -/
theorem transact_action_error_witness :
    (transactAttempt rollbackFailsRetry (ascii "import") duplicateAction (0, [])).1
      = some duplicateError :=
  (transact_action_error rollbackFailsRetry (ascii "import") duplicateAction).1 (0, [])
    duplicateError (by decide) (by decide)


/-- The calls, the state and the result of one attempt of `Transact`, branch by branch. -/
theorem transactAttempt_calls_core {σ : Type} (t : SQLWithRetry σ) (purpose : GoString)
    (action : σ → Error × σ) (w : σ × List TxCall) :
    (∀ e, (t.DB.BeginTx w.1).1 = some e →
      (transactAttempt t purpose action w).1
        = Annotate (some e) (ascii "begin transaction failed")
      ∧ (transactAttempt t purpose action w).2.1 = (t.DB.BeginTx w.1).2
      ∧ (transactAttempt t purpose action w).2.2 = w.2 ++ [TxCall.beginTx])
    ∧ (∀ e, (t.DB.BeginTx w.1).1 = none → (action (t.DB.BeginTx w.1).2).1 = some e →
      (transactAttempt t purpose action w).2.1
        = (t.DB.Rollback (action (t.DB.BeginTx w.1).2).2).2
      ∧ (transactAttempt t purpose action w).2.2
        = w.2 ++ [TxCall.beginTx, TxCall.action, TxCall.rollback]
          ++ (match (t.DB.Rollback (action (t.DB.BeginTx w.1).2).2).1 with
              | some rerr =>
                [TxCall.logError (purpose ++ ascii " rollback transaction failed") rerr]
              | none => [])
      ∧ (transactAttempt t purpose action w).2.2.count TxCall.rollback
        = w.2.count TxCall.rollback + 1
      ∧ (transactAttempt t purpose action w).2.2.count TxCall.commit
        = w.2.count TxCall.commit)
    ∧ ((t.DB.BeginTx w.1).1 = none → (action (t.DB.BeginTx w.1).2).1 = none →
      (transactAttempt t purpose action w).2.1
        = (t.DB.Commit (action (t.DB.BeginTx w.1).2).2).2
      ∧ (transactAttempt t purpose action w).2.2
        = w.2 ++ [TxCall.beginTx, TxCall.action, TxCall.commit]
      ∧ (transactAttempt t purpose action w).2.2.count TxCall.commit
        = w.2.count TxCall.commit + 1
      ∧ (transactAttempt t purpose action w).2.2.count TxCall.rollback
        = w.2.count TxCall.rollback
      ∧ ((transactAttempt t purpose action w).1 = none ↔
          (t.DB.Commit (action (t.DB.BeginTx w.1).2).2).1 = none)
      ∧ (∀ e, (t.DB.Commit (action (t.DB.BeginTx w.1).2).2).1 = some e →
          (transactAttempt t purpose action w).1
            = Annotate (some e) (ascii "commit transaction failed"))) := by
  refine ⟨?_, ?_, ?_⟩
  · intro e hb
    unfold transactAttempt
    simp only [hb]
    exact ⟨trivial, trivial, trivial⟩
  · intro e hb ha
    unfold transactAttempt
    simp only [hb, ha]
    cases (t.DB.Rollback (action (t.DB.BeginTx w.1).2).2).1 <;>
      simp [List.count_append, List.count_cons]
  · intro hb ha
    unfold transactAttempt
    simp only [hb, ha]
    cases hc : (t.DB.Commit (action (t.DB.BeginTx w.1).2).2).1 with
    | none => simp [List.count_append, List.count_cons]
    | some e =>
      have hne : Annotate (some e) (ascii "commit transaction failed") ≠ none := by
        by_cases hs : e.hasStack <;> simp [Annotate, hs]
      simp [List.count_append, List.count_cons, hne]

/-- An attempt of `Transact` whose transaction begins, whose action succeeds
and whose commit fails with `e`: the attempt returns the annotated commit
error and calls the action once. -/
theorem transactAttempt_commit_fails {σ : Type} (t : SQLWithRetry σ) (purpose : GoString)
    (action : σ → Error × σ) (w : σ × List TxCall) (e : GoError)
    (hb : (t.DB.BeginTx w.1).1 = none) (ha : (action (t.DB.BeginTx w.1).2).1 = none)
    (hc : (t.DB.Commit (action (t.DB.BeginTx w.1).2).2).1 = some e) :
    (transactAttempt t purpose action w).1
      = Annotate (some e) (ascii "commit transaction failed")
    ∧ actionCalls (transactAttempt t purpose action w).2.2 = actionCalls w.2 + 1 := by
  unfold transactAttempt
  simp only [hb, ha, hc]
  refine ⟨trivial, ?_⟩
  simp [actionCalls, List.count_append, List.count_cons]

theorem Annotate_some (e : GoError) (m : GoString) :
    ∃ e1, Annotate (some e) m = some e1 ∧ e1.cause = e.cause
      ∧ IsRetryableError (some e1) = IsRetryableError (some e) := by
  have hc := IsRetryableError_congr _ _ (Cause_Annotate (some e) m)
  by_cases hs : e.hasStack
  · refine ⟨.withMessage m e, by simp [Annotate, hs], rfl, ?_⟩
    rw [← hc]
    simp [Annotate, hs]
  · refine ⟨.withStack (.withMessage m e), by simp [Annotate, hs], rfl, ?_⟩
    rw [← hc]
    simp [Annotate, hs]

/-- C20: commit failures are classified like any other error. When the
transaction always begins, the action always succeeds and commit always fails
with `e`, `Transact` calls the action exactly 3 times if `IsRetryableError e`
and exactly once otherwise, and the error it returns has the underlying cause
of `e` (which is `e` itself when `e` is no wrapper). -/
theorem transact_commit_failure {σ : Type} (t : SQLWithRetry σ) (purpose : GoString)
    (action : σ → Error × σ) (s : σ) (e : GoError)
    (hb : ∀ s1, (t.DB.BeginTx s1).1 = none) (ha : ∀ s1, (action s1).1 = none)
    (hc : ∀ s1, (t.DB.Commit s1).1 = some e) :
    (IsRetryableError (some e) = true →
      actionCalls (Transact t purpose action s).state.2 = 3
      ∧ (Transact t purpose action s).attempts = 3)
    ∧ (IsRetryableError (some e) = false →
      actionCalls (Transact t purpose action s).state.2 = 1
      ∧ (Transact t purpose action s).attempts = 1)
    ∧ (Transact t purpose action s).err
        = Annotatef (Annotate (some e) (ascii "commit transaction failed"))
            (purpose ++ ascii " failed")
    ∧ Cause (Transact t purpose action s).err = some e.cause
    ∧ (e.cause = e → Cause (Transact t purpose action s).err = some e) := by
  obtain ⟨e1, he1, hcause, hr1⟩ := Annotate_some e (ascii "commit transaction failed")
  have hatt : ∀ w, (transactAttempt t purpose action w).1 = some e1
      ∧ actionCalls (transactAttempt t purpose action w).2.2 = actionCalls w.2 + 1 := by
    intro w
    have h := transactAttempt_commit_fails t purpose action w e (hb _) (ha _) (hc _)
    exact ⟨by rw [h.1, he1], h.2⟩
  have hn : ∀ j, (nthCall (transactAttempt t purpose action) (s, []) j).1 = some e1 := by
    intro j
    cases j with
    | zero => exact (hatt _).1
    | succ j => exact (hatt _).1
  have c0 : actionCalls (nthCall (transactAttempt t purpose action) (s, []) 0).2.2 = 1 :=
    (hatt (s, [])).2
  have c2 : actionCalls (nthCall (transactAttempt t purpose action) (s, []) 2).2.2 = 3 := by
    simp only [nthCall]
    rw [(hatt _).2, (hatt _).2, (hatt _).2]
    rfl
  have herr : ∀ x : Error × (σ × List TxCall), x.1 = some e1 →
      Annotatef x.1 (purpose ++ ascii " failed")
        = Annotatef (Annotate (some e) (ascii "commit transaction failed"))
            (purpose ++ ascii " failed") := by
    intro x hx
    rw [hx, he1]
  have hCause : Cause (Annotatef (Annotate (some e) (ascii "commit transaction failed"))
      (purpose ++ ascii " failed")) = some e.cause := by
    rw [Cause_Annotatef, Cause_Annotate]
    rfl
  unfold Transact
  rw [perform_unroll]
  by_cases hr : IsRetryableError (some e) = true
  · have hs : stops (some e1) = false := stops_of_retryable _ (by rw [hr1, hr])
    rw [hn 0, hn 1, hs]
    simp only [Bool.false_eq_true, if_false]
    rw [← hn 2, herr _ (hn 2)]
    refine ⟨fun _ => ⟨c2, ?_⟩, fun h => ?_, rfl, hCause, fun h => ?_⟩
    · split <;> simp [Outcome.attempts]
    · rw [hr] at h
      exact absurd h (by decide)
    · rw [hCause, h]
  · rw [Bool.not_eq_true] at hr
    have hs : stops (some e1) = true := by simp [stops, hr1, hr]
    rw [hn 0, hs]
    simp only [if_true]
    rw [← hn 0, herr _ (hn 0)]
    refine ⟨fun h => ?_, fun _ => ⟨c0, rfl⟩, rfl, hCause, fun h => ?_⟩
    · rw [hr] at h
      exact absurd h (by decide)
    · rw [hCause, h]

/-- Witness of C20: commit always fails with the retryable `busyError`, and the
action is called three times. -/
theorem transact_commit_failure_witness :
    actionCalls (Transact commitFailsRetry (ascii "import") okAction 0).state.2 = 3
    ∧ Cause (Transact commitFailsRetry (ascii "import") okAction 0).err = some busyError := by
  have h := transact_commit_failure commitFailsRetry (ascii "import") okAction 0 busyError
    (fun _ => rfl) (fun _ => rfl) (fun _ => rfl)
  exact ⟨(h.1 (by decide)).1, h.2.2.2.2 (by decide)⟩


/-! ## Identifier escaping -/

theorem writeIdentifierBytes_eq (builder : Builder) (identifier : GoString) :
    writeIdentifierBytes builder identifier = builder ++ doubleBackticks identifier := by
  induction identifier generalizing builder with
  | nil => simp [writeIdentifierBytes, doubleBackticks]
  | cons b rest ih =>
    by_cases hb : b = 96
    · simp [writeIdentifierBytes, doubleBackticks, hb, ih, List.flatMap_cons]
    · simp [writeIdentifierBytes, doubleBackticks, hb, ih, List.flatMap_cons]

theorem WriteMySQLIdentifier_eq (builder : Builder) (identifier : GoString) :
    WriteMySQLIdentifier builder identifier
      = builder ++ ([96] ++ doubleBackticks identifier ++ [96]) := by
  simp [WriteMySQLIdentifier, writeIdentifierBytes_eq]

theorem doubleBackticks_length (s : GoString) :
    (doubleBackticks s).length = s.length + s.count 96 := by
  induction s with
  | nil => rfl
  | cons b rest ih =>
    by_cases hb : b = 96
    · subst hb
      simp only [doubleBackticks, List.flatMap_cons, if_true, List.length_append,
        List.length_cons, List.length_nil, List.count_cons_self] at ih ⊢
      omega
    · have hne : (b == 96) = false := by simpa using hb
      simp only [doubleBackticks, List.flatMap_cons, hb, if_false, List.length_append,
        List.length_cons, List.length_nil, List.count_cons, hne] at ih ⊢
      simp only [Bool.false_eq_true, if_false] at ih ⊢
      omega

/-- C13: for all byte strings `schema` and `table`, `UniqueTable schema table`
is a backtick, the schema with its backticks doubled, backtick dot backtick,
the table with its backticks doubled, a backtick; its length is
`len schema + len table + 5 +` the number of backtick bytes in both. Examples:
`UniqueTable "a" "b"` and `UniqueTable` of `a`, backtick, `b` with `c`. -/
theorem uniqueTable_eq (schema table : GoString) :
    UniqueTable schema table
      = [96] ++ doubleBackticks schema ++ [96] ++ [46] ++ [96] ++ doubleBackticks table ++ [96]
    ∧ (UniqueTable schema table).length
      = schema.length + table.length + 5 + (schema.count 96 + table.count 96)
    ∧ UniqueTable (ascii "a") (ascii "b") = [96, 97, 96, 46, 96, 98, 96]
    ∧ UniqueTable [97, 96, 98] (ascii "c") = [96, 97, 96, 96, 98, 96, 46, 96, 99, 96] := by
  have h : UniqueTable schema table
      = [96] ++ doubleBackticks schema ++ [96] ++ [46] ++ [96] ++ doubleBackticks table
        ++ [96] := by
    simp [UniqueTable, WriteMySQLIdentifier_eq]
  refine ⟨h, ?_, by decide, by decide⟩
  rw [h]
  simp only [List.length_append, List.length_cons, List.length_nil, doubleBackticks_length]
  omega


/-- In a string with its backticks doubled every maximal run of backticks has
even length. -/
theorem doubleBackticks_runs_even (s : GoString) :
    ∀ (pre : GoString) (n : Nat) (post : GoString),
      doubleBackticks s = pre ++ List.replicate n 96 ++ post →
      pre.getLast? ≠ some 96 → post.head? ≠ some 96 → Even n := by
  induction s with
  | nil =>
    intro pre n post h _ _
    have h1 : pre ++ List.replicate n 96 ++ post = [] := by
      simpa [doubleBackticks] using h.symm
    have h2 : List.replicate n 96 = [] := by
      have := List.append_eq_nil.mp h1
      exact (List.append_eq_nil.mp this.1).2
    cases n with
    | zero => exact even_zero
    | succ n => simp [List.replicate_succ] at h2
  | cons b rest ih =>
    intro pre n post h hpre hpost
    by_cases hb : b = 96
    · subst hb
      have hd : doubleBackticks (96 :: rest) = 96 :: 96 :: doubleBackticks rest := by
        simp [doubleBackticks, List.flatMap_cons]
      rw [hd] at h
      cases pre with
      | nil =>
        cases n with
        | zero =>
          simp only [List.replicate_zero, List.nil_append] at h
          rw [← h] at hpost
          exact absurd rfl hpost
        | succ n =>
          cases n with
          | zero =>
            simp only [List.replicate_succ, List.replicate_zero, List.nil_append,
              List.cons_append, List.cons.injEq, true_and] at h
            rw [← h] at hpost
            exact absurd rfl hpost
          | succ n =>
            simp only [List.replicate_succ, List.nil_append, List.cons_append,
              List.cons.injEq, true_and] at h
            have := ih [] n post (by simpa using h) (by simp) hpost
            rw [show n + 1 + 1 = n + 2 from rfl]
            exact (Nat.even_add.mpr ⟨fun _ => even_two, fun _ => this⟩)
      | cons x pre1 =>
        cases pre1 with
        | nil =>
          simp only [List.cons_append, List.nil_append, List.cons.injEq] at h
          obtain ⟨hx, -⟩ := h
          subst hx
          exact absurd rfl hpre
        | cons y pre2 =>
          simp only [List.cons_append, List.cons.injEq] at h
          obtain ⟨hx, hy, h⟩ := h
          subst hx hy
          cases pre2 with
          | nil => exact absurd rfl hpre
          | cons z pre3 =>
            have hl : (z :: pre3).getLast? ≠ some 96 := by
              simpa [List.getLast?_cons_cons] using hpre
            exact ih (z :: pre3) n post (by simpa using h) hl hpost
    · have hd : doubleBackticks (b :: rest) = b :: doubleBackticks rest := by
        simp [doubleBackticks, List.flatMap_cons, hb]
      rw [hd] at h
      cases pre with
      | nil =>
        cases n with
        | zero => exact even_zero
        | succ n =>
          simp only [List.replicate_succ, List.nil_append, List.cons_append,
            List.cons.injEq] at h
          exact absurd h.1 hb
      | cons x pre1 =>
        simp only [List.cons_append, List.cons.injEq] at h
        obtain ⟨-, h⟩ := h
        cases pre1 with
        | nil => exact ih [] n post (by simpa using h) (by simp) hpost
        | cons z pre3 =>
          have hl : (z :: pre3).getLast? ≠ some 96 := by
            simpa [List.getLast?_cons_cons] using hpre
          exact ih (z :: pre3) n post (by simpa using h) hl hpost

/-- C14: for every byte string `identifier`, what `WriteMySQLIdentifier`
appends to the builder begins with a backtick and ends with a backtick, and in
the bytes strictly between the two every maximal run of consecutive backtick
bytes has even length. -/
theorem writeMySQLIdentifier_quoted (builder : Builder) (identifier : GoString) :
    WriteMySQLIdentifier builder identifier
      = builder ++ ([96] ++ doubleBackticks identifier ++ [96])
    ∧ ((WriteMySQLIdentifier builder identifier).drop builder.length).head? = some 96
    ∧ ((WriteMySQLIdentifier builder identifier).drop builder.length).getLast? = some 96
    ∧ ∀ (pre : GoString) (n : Nat) (post : GoString),
        (((WriteMySQLIdentifier builder identifier).drop builder.length).drop 1).dropLast
          = pre ++ List.replicate n 96 ++ post →
        pre.getLast? ≠ some 96 → post.head? ≠ some 96 → Even n := by
  have hinner :
      (((WriteMySQLIdentifier builder identifier).drop builder.length).drop 1).dropLast
        = doubleBackticks identifier := by
    rw [WriteMySQLIdentifier_eq, List.drop_left]
    simp
  refine ⟨WriteMySQLIdentifier_eq builder identifier, ?_, ?_, ?_⟩
  · rw [WriteMySQLIdentifier_eq, List.drop_left]
    rfl
  · rw [WriteMySQLIdentifier_eq, List.drop_left]
    have h : [96] ++ doubleBackticks identifier ++ [96]
        = (96 :: doubleBackticks identifier) ++ [96] := rfl
    rw [h]
    exact List.getLast?_concat _
  · rw [hinner]
    exact doubleBackticks_runs_even identifier

/-- Witness of C14: the identifier `a`, backtick, `b` is written with a run of
two backticks between `a` and `b`. -/
theorem writeMySQLIdentifier_quoted_witness :
    (((WriteMySQLIdentifier [] [97, 96, 98]).drop 0).drop 1).dropLast
      = [97] ++ List.replicate 2 96 ++ [98]
    ∧ Even 2 :=
  ⟨by decide,
   (writeMySQLIdentifier_quoted [] [97, 96, 98]).2.2.2 [97] 2 [98] (by decide) (by decide)
     (by decide)⟩

/-! ## The DSN -/

theorem sprintf_base (param : MySQLConnectParam) :
    Sprintf dsnFormat
      [FmtArg.str param.User, FmtArg.str param.Password, FmtArg.str param.Host,
       FmtArg.int param.Port, FmtArg.str param.SQLMode, FmtArg.uint param.MaxAllowedPacket,
       FmtArg.str param.TLS] = baseDSN param := by
  simp [dsnFormat, baseDSN, ascii, Sprintf]

theorem sprintf_var (kv : GoString × GoString) :
    Sprintf (ascii "&%s=%s") [FmtArg.str kv.1, FmtArg.str (QueryEscape kv.2)]
      = varSegment kv := by
  simp [varSegment, ascii, Sprintf]

theorem foldl_segments (order : List (GoString × GoString)) (dsn : GoString) :
    order.foldl (fun dsn kv => dsn ++ varSegment kv) dsn
      = dsn ++ order.flatMap varSegment := by
  induction order generalizing dsn with
  | nil => simp
  | cons kv rest ih => simp [List.foldl_cons, ih, List.flatMap_cons, List.append_assoc]

theorem toDSN_segments (param : MySQLConnectParam) (order : List (GoString × GoString)) :
    ToDSN param order = baseDSN param ++ order.flatMap varSegment := by
  unfold ToDSN
  simp only [sprintf_base, sprintf_var]
  exact foldl_segments order (baseDSN param)

/-- C16 as stated fails: with two session variables the two orders in which the
map may be visited give two different strings. -/
theorem toDSN_deterministic_counterexample :
    ¬ (∀ (param : MySQLConnectParam) (o1 o2 : List (GoString × GoString)),
        RangeOrder param.Vars o1 → RangeOrder param.Vars o2 →
        ToDSN param o1 = ToDSN param o2) := by
  intro h
  have h1 : RangeOrder twoVarsParam.Vars [(ascii "a", ascii "1"), (ascii "b", ascii "2")] :=
    List.Perm.refl _
  have h2 : RangeOrder twoVarsParam.Vars [(ascii "b", ascii "2"), (ascii "a", ascii "1")] :=
    List.Perm.swap _ _ _
  exact absurd (h twoVarsParam _ _ h1 h2) (by decide)

/-- C16, amended: any two calls of `ToDSN` on the same parameters return the
same base string followed by the same session-variable segments, in an order
that may differ from call to call; the two strings have the same length, and
they are equal when the mapping has at most one entry. -/
theorem toDSN_deterministic (param : MySQLConnectParam)
    (o1 o2 : List (GoString × GoString))
    (h1 : RangeOrder param.Vars o1) (h2 : RangeOrder param.Vars o2) :
    ToDSN param o1 = baseDSN param ++ o1.flatMap varSegment
    ∧ ToDSN param o2 = baseDSN param ++ o2.flatMap varSegment
    ∧ (o1.map varSegment).Perm (o2.map varSegment)
    ∧ (ToDSN param o1).length = (ToDSN param o2).length
    ∧ (param.Vars.length ≤ 1 → ToDSN param o1 = ToDSN param o2) := by
  have hp : o1.Perm o2 := List.Perm.trans h1 (List.Perm.symm h2)
  refine ⟨toDSN_segments param o1, toDSN_segments param o2, List.Perm.map _ hp, ?_, ?_⟩
  · rw [toDSN_segments, toDSN_segments, List.length_append, List.length_append]
    congr 1
    exact List.Perm.length_eq (List.Perm.flatMap_right varSegment hp)
  · intro hle
    have hl1 : o1.length ≤ 1 := by rw [List.Perm.length_eq h1]; exact hle
    have heq : o1 = o2 := by
      cases o1 with
      | nil => exact (List.Perm.nil_eq hp)
      | cons a t =>
        cases t with
        | nil => exact (List.perm_singleton.mp (List.Perm.symm hp)).symm
        | cons b t => simp at hl1
    rw [heq]

/-! ## `GetJSON` -/

/-- C17 as stated fails: status 201 is a 2xx status and the body `{}` decodes,
yet `GetJSON` returns an error and leaves the target as it was. -/
theorem getJSON_status_counterexample :
    (200 ≤ 201 ∧ 201 < 300)
    ∧ (storeDecode [123, 125] []).1 = none
    ∧ (GetJSON (fixedClient 201 [123, 125]) storeDecode (ascii "http://tidb/status") []).1
        ≠ none
    ∧ (GetJSON (fixedClient 201 [123, 125]) storeDecode (ascii "http://tidb/status") []).2
        = [] := by
  decide

/-- C17, amended: for a response whose body decodes into the target, `GetJSON`
succeeds (returns nil and stores the decoded value) exactly when the status is
200 (`http.StatusOK`); for every other status, another 2xx status included, it
returns the error `get <url> http status code != 200, message <body>` and does
not decode the body into the target. -/
theorem getJSON_status {α : Type} (get : GoString → Except GoError Response)
    (decode : GoString → α → Error × α) (url : GoString) (v v1 : α)
    (resp : Response) (body : GoString)
    (hget : get url = .ok resp) (hbody : resp.Body = .ok body)
    (hvalid : decode body v = (none, v1)) :
    ((GetJSON get decode url v).1 = none ↔ resp.StatusCode = 200)
    ∧ (resp.StatusCode = 200 → GetJSON get decode url v = (none, v1))
    ∧ (resp.StatusCode ≠ 200 →
        (GetJSON get decode url v).1
          = some (Errorf (ascii "get " ++ url ++ ascii " http status code != 200, message "
              ++ body))
        ∧ (GetJSON get decode url v).2 = v) := by
  have hfmt : Sprintf (ascii "get %s http status code != 200, message %s")
      [FmtArg.str url, FmtArg.str body]
      = ascii "get " ++ url ++ ascii " http status code != 200, message " ++ body := by
    simp [ascii, Sprintf]
  by_cases hs : resp.StatusCode = 200
  · have h : GetJSON get decode url v = (none, v1) := by
      simp [GetJSON, hget, hbody, hvalid, hs, StatusOK, Trace]
    exact ⟨by simp [h, hs], fun _ => h, fun hne => absurd hs hne⟩
  · have h : GetJSON get decode url v
        = (some (Errorf (ascii "get " ++ url ++ ascii " http status code != 200, message "
            ++ body)), v) := by
      simp only [GetJSON, hget, hbody, StatusOK, ne_eq, hs, not_false_eq_true, if_true, hfmt]
    exact ⟨by simp [h, hs], fun h200 => absurd h200 hs, fun _ => by simp [h]⟩

/-- Witness of C17 amended: status 404 with the body `{}`, as in
`TestAdjustPageNotFound`. -/
theorem getJSON_status_witness :
    (GetJSON (fixedClient 404 [123, 125]) storeDecode (ascii "http://tidb/status") []).1
      ≠ none
    ∧ (GetJSON (fixedClient 404 [123, 125]) storeDecode (ascii "http://tidb/status") []).2
      = [] := by
  have h := (getJSON_status (fixedClient 404 [123, 125]) storeDecode
    (ascii "http://tidb/status") [] [123, 125] ⟨404, .ok [123, 125]⟩ [123, 125]
    rfl rfl rfl).2.2 (by decide)
  exact ⟨by rw [h.1]; simp, h.2⟩


/-! ## `Config.Adjust` -/

/-- C18: `Adjust` accepts the CSV dialect exactly when the separator is one
byte long, the delimiter is empty or one byte long, the two differ, and, with
backslash-escape enabled, neither is the backslash; the first rule violated
makes it fail with the message `TestInvalidCSV` lists for it, and every message
starts with `invalid config: `. -/
theorem adjustCSV_rules (csv : CSVConfig) :
    (adjustCSV csv = none ↔
      csv.Separator.length = 1 ∧ csv.Delimiter.length ≤ 1 ∧ csv.Separator ≠ csv.Delimiter
      ∧ (csv.BackslashEscape = true → csv.Separator ≠ [92] ∧ csv.Delimiter ≠ [92]))
    ∧ (csv.Separator.length ≠ 1 → adjustCSV csv = some msgSeparatorLength)
    ∧ (csv.Separator.length = 1 → 1 < csv.Delimiter.length →
        adjustCSV csv = some msgDelimiterLength)
    ∧ (csv.Separator.length = 1 → csv.Separator = csv.Delimiter →
        adjustCSV csv = some msgSameCharacter)
    ∧ (csv.BackslashEscape = true → csv.Separator = [92] → csv.Delimiter.length ≤ 1 →
        csv.Delimiter ≠ [92] → adjustCSV csv = some (msgBackslash (ascii "separator")))
    ∧ (csv.BackslashEscape = true → csv.Delimiter = [92] → csv.Separator.length = 1 →
        csv.Separator ≠ [92] → adjustCSV csv = some (msgBackslash (ascii "delimiter")))
    ∧ (csv.BackslashEscape = false → csv.Separator.length = 1 → csv.Delimiter.length ≤ 1 →
        csv.Separator ≠ csv.Delimiter → adjustCSV csv = none)
    ∧ (∀ m, adjustCSV csv = some m → invalidConfig <+: m) := by
  refine ⟨?_, ?_, ?_, ?_, ?_, ?_, ?_, ?_⟩
  · unfold adjustCSV
    constructor
    · intro h
      split_ifs at h with h1 h2 h3 h4 h5
      refine ⟨by simpa using h1, by omega, h3, fun hb => ⟨fun hs => h4 ⟨hb, hs⟩,
        fun hd => h5 ⟨hb, hd⟩⟩⟩
    · rintro ⟨h1, h2, h3, h4⟩
      have h1n : ¬ csv.Separator.length ≠ 1 := by simpa using h1
      have h2n : ¬ csv.Delimiter.length > 1 := by omega
      have h4n : ¬ (csv.BackslashEscape = true ∧ csv.Separator = [92]) :=
        fun h => (h4 h.1).1 h.2
      have h5n : ¬ (csv.BackslashEscape = true ∧ csv.Delimiter = [92]) :=
        fun h => (h4 h.1).2 h.2
      simp only [h1n, h2n, h3, h4n, h5n, if_false]
  · intro h
    simp [adjustCSV, h]
  · intro h1 h2
    simp [adjustCSV, h1, h2]
  · intro h1 h2
    have h3 : ¬ csv.Delimiter.length > 1 := by rw [← h2]; omega
    simp [adjustCSV, h1, h2, h3]
    intro h
    rw [← h2] at h
    omega
  · intro hb hs hd hne
    have h2n : ¬ csv.Delimiter.length > 1 := by omega
    have h3 : ¬ csv.Separator = csv.Delimiter := by rw [hs]; exact fun h => hne h.symm
    have h3b : ¬ [92] = csv.Delimiter := fun h => hne h.symm
    simp [adjustCSV, h2n, hb, hs, h3b]
  · intro hb hd hs hne
    have h2n : ¬ csv.Delimiter.length > 1 := by simp [hd]
    have h3 : ¬ csv.Separator = csv.Delimiter := by rw [hd]; exact hne
    have h1n : ¬ csv.Separator.length ≠ 1 := by simpa using hs
    simp [adjustCSV, h1n, h3, hb, hd, hne]
  · intro hb hs hd hne
    have h2n : ¬ csv.Delimiter.length > 1 := by omega
    have h1n : ¬ csv.Separator.length ≠ 1 := by simpa using hs
    simp [adjustCSV, h1n, h2n, hne, hb]
  · intro m hm
    unfold adjustCSV at hm
    split_ifs at hm <;> simp only [Option.some.injEq] at hm <;> subst hm
    · exact ⟨_, by simp [msgSeparatorLength, List.append_assoc]; rfl⟩
    · exact ⟨_, by simp [msgDelimiterLength, List.append_assoc]; rfl⟩
    · exact ⟨_, rfl⟩
    · exact ⟨_, by simp [msgBackslash, List.append_assoc]; rfl⟩
    · exact ⟨_, by simp [msgBackslash, List.append_assoc]; rfl⟩


/-- Witness of C18: the row of `TestInvalidCSV` with separator and delimiter
both `|`. -/
theorem adjustCSV_rules_witness :
    adjustCSV ⟨ascii "|", ascii "|", true⟩ = some msgSameCharacter :=
  (adjustCSV_rules ⟨ascii "|", ascii "|", true⟩).2.2.2.1 (by decide) (by decide)

/-! ## `UniqueTable` is injective -/

theorem doubleBackticks_cons_backtick (rest : GoString) :
    doubleBackticks (96 :: rest) = 96 :: 96 :: doubleBackticks rest := by
  simp [doubleBackticks, List.flatMap_cons]

theorem doubleBackticks_cons_other (b : Nat) (rest : GoString) (hb : b ≠ 96) :
    doubleBackticks (b :: rest) = b :: doubleBackticks rest := by
  simp [doubleBackticks, List.flatMap_cons, hb]

/-- A doubled string followed by a closing backtick can be read back: the
closing backtick is the first one that is not followed by another. -/
theorem doubleBackticks_closed_inj (s1 : GoString) :
    ∀ (s2 r1 r2 : GoString),
      doubleBackticks s1 ++ 96 :: r1 = doubleBackticks s2 ++ 96 :: r2 →
      r1.head? ≠ some 96 → r2.head? ≠ some 96 → s1 = s2 ∧ r1 = r2 := by
  induction s1 with
  | nil =>
    intro s2 r1 r2 h h1 h2
    cases s2 with
    | nil =>
      simp only [doubleBackticks, List.flatMap_nil, List.nil_append, List.cons.injEq,
        true_and] at h
      exact ⟨rfl, h⟩
    | cons b t2 =>
      by_cases hb : b = 96
      · subst hb
        rw [doubleBackticks_cons_backtick] at h
        simp only [doubleBackticks, List.flatMap_nil, List.nil_append, List.cons_append,
          List.cons.injEq, true_and] at h
        rw [h] at h1
        exact absurd rfl h1
      · rw [doubleBackticks_cons_other b t2 hb] at h
        simp only [doubleBackticks, List.flatMap_nil, List.nil_append, List.cons_append,
          List.cons.injEq] at h
        exact absurd h.1.symm hb
  | cons a t1 ih =>
    intro s2 r1 r2 h h1 h2
    by_cases ha : a = 96
    · subst ha
      rw [doubleBackticks_cons_backtick] at h
      cases s2 with
      | nil =>
        simp only [doubleBackticks, List.flatMap_nil, List.nil_append, List.cons_append,
          List.cons.injEq, true_and] at h
        rw [← h] at h2
        exact absurd rfl h2
      | cons b t2 =>
        by_cases hb : b = 96
        · subst hb
          rw [doubleBackticks_cons_backtick] at h
          simp only [List.cons_append, List.cons.injEq, true_and] at h
          obtain ⟨ht, hr⟩ := ih t2 r1 r2 h h1 h2
          exact ⟨by rw [ht], hr⟩
        · rw [doubleBackticks_cons_other b t2 hb] at h
          simp only [List.cons_append, List.cons.injEq] at h
          exact absurd h.1.symm hb
    · rw [doubleBackticks_cons_other a t1 ha] at h
      cases s2 with
      | nil =>
        simp only [doubleBackticks, List.flatMap_nil, List.nil_append, List.cons_append,
          List.cons.injEq] at h
        exact absurd h.1 ha
      | cons b t2 =>
        by_cases hb : b = 96
        · subst hb
          rw [doubleBackticks_cons_backtick] at h
          simp only [List.cons_append, List.cons.injEq] at h
          exact absurd h.1 ha
        · rw [doubleBackticks_cons_other b t2 hb] at h
          simp only [List.cons_append, List.cons.injEq] at h
          obtain ⟨ht, hr⟩ := ih t2 r1 r2 h.2 h1 h2
          exact ⟨by rw [h.1, ht], hr⟩

theorem uniqueTable_shape (schema table : GoString) :
    UniqueTable schema table
      = 96 :: (doubleBackticks schema ++ 96 :: (46 :: 96 :: (doubleBackticks table ++ 96 :: [])))
    := by
  simp [UniqueTable, WriteMySQLIdentifier_eq]

/-- C21: `UniqueTable` returns a different name for each pair: for all byte
strings, `UniqueTable s1 t1 = UniqueTable s2 t2` implies `s1 = s2` and
`t1 = t2`, names with backticks and dots included: schema `a`, backtick, dot,
backtick, `b` with table `c` and schema `a` with table `b`, backtick, dot,
backtick, `c` get different names. -/
theorem uniqueTable_injective :
    (∀ (s1 t1 s2 t2 : GoString),
      UniqueTable s1 t1 = UniqueTable s2 t2 → s1 = s2 ∧ t1 = t2)
    ∧ UniqueTable [97, 96, 46, 96, 98] [99] ≠ UniqueTable [97] [98, 96, 46, 96, 99] := by
  have hinj : ∀ (s1 t1 s2 t2 : GoString),
      UniqueTable s1 t1 = UniqueTable s2 t2 → s1 = s2 ∧ t1 = t2 := by
    intro s1 t1 s2 t2 h
    rw [uniqueTable_shape, uniqueTable_shape] at h
    simp only [List.cons.injEq, true_and] at h
    obtain ⟨hs, hr⟩ := doubleBackticks_closed_inj s1 s2 _ _ h (by simp) (by simp)
    simp only [List.cons.injEq, true_and] at hr
    obtain ⟨ht, -⟩ := doubleBackticks_closed_inj t1 t2 [] [] hr (by simp) (by simp)
    exact ⟨hs, ht⟩
  refine ⟨hinj, ?_⟩
  intro h
  exact absurd (hinj _ _ _ _ h).1 (by decide)

/-- Witness of C21: two equal names come from the same schema and table. -/
theorem uniqueTable_injective_witness :
    UniqueTable [97, 96, 98] [99] = UniqueTable [97, 96, 98] [99]
    ∧ (([97, 96, 98] : GoString) = [97, 96, 98] ∧ ([99] : GoString) = [99]) :=
  ⟨rfl, uniqueTable_injective.1 [97, 96, 98] [99] [97, 96, 98] [99] rfl⟩

/-! ## Network errors -/

/-- C22: for every error whose underlying cause satisfies `net.Error` and is
none of the sentinels, `IsRetryableError` returns the value of its `Timeout()`
method: a network error that reports no timeout is not retryable, and the
server-error and status-code rules are not consulted, whatever status code the
error carries. -/
theorem isRetryableError_netError (err : Error) (c : GoError) (timeout : Bool)
    (hc : Cause err = some c) (hn : c.asNetError = some timeout)
    (hs : c.isSentinel = false) :
    IsRetryableError err = timeout
    ∧ (timeout = false → IsRetryableError err = false)
    ∧ (∀ (status : Option Nat) (msg : GoString),
        IsRetryableError (some (.netError timeout status msg)) = timeout) := by
  have h : IsRetryableError err = timeout := by
    unfold IsRetryableError
    rw [hc]
    cases c <;> simp_all [GoError.asNetError, GoError.isSentinel]
  refine ⟨h, fun ht => by rw [h, ht], ?_⟩
  intro status msg
  rfl

/-- Witness of C22: a traced "connection refused" that carries the status code
`Unavailable` is not retryable, although that code alone would be. -/
theorem isRetryableError_netError_witness :
    IsRetryableError
      (Trace (some (.netError false (some codes.Unavailable) (ascii "connection refused"))))
      = false
    ∧ IsRetryableError (some (.grpcStatus codes.Unavailable (ascii "connection refused")))
      = true :=
  ⟨(isRetryableError_netError
      (Trace (some (.netError false (some codes.Unavailable) (ascii "connection refused"))))
      (.netError false (some codes.Unavailable) (ascii "connection refused")) false
      (by decide) (by decide) (by decide)).1,
   by decide⟩


/-! ## The retry loop: the first attempt that stops it -/

theorem Annotatef_shape (e : GoError) (m : GoString) :
    Annotatef (some e) m = some (.withStack (.withMessage m e))
    ∨ Annotatef (some e) m = some (.withMessage m e) := by
  by_cases hs : e.hasStack <;> simp [Annotatef, hs]

theorem Annotate_shape (e : GoError) (m : GoString) :
    Annotate (some e) m = some (.withStack (.withMessage m e))
    ∨ Annotate (some e) m = some (.withMessage m e) := by
  by_cases hs : e.hasStack <;> simp [Annotate, hs]

theorem ne_Annotate_self (e : GoError) (m : GoString) : Annotate (some e) m ≠ some e := by
  intro h
  by_cases hs : e.hasStack
  · simp only [Annotate, hs, if_true, Option.some.injEq] at h
    have := congrArg sizeOf h
    simp at this
  · simp only [Annotate, hs, Bool.false_eq_true, if_false, Option.some.injEq] at h
    have := congrArg sizeOf h
    simp at this
    omega

/-- C8: let `k` (from 1) be the first attempt whose outcome is success or a
non-retryable error. The loop invokes the action exactly `min k 3` times; it
returns nil exactly when `k ≤ 3` and attempt `k` succeeded; when attempt
`k ≤ 3` failed with `e`, the loop stops there, having made `k` calls, and
returns `e` under a message layer `<purpose> failed` (with a stack layer on top
when `e` carried no stack): an error that is not `e` itself and has the
underlying cause of `e`. -/
theorem perform_first_stop {σ : Type} (L : Logger) (purpose : GoString)
    (action : σ → Error × σ) (s : σ) (k : Nat) (hk : 1 ≤ k)
    (hstop : stops (nthCall action s (k - 1)).1 = true)
    (hfirst : ∀ j, j < k - 1 → stops (nthCall action s j).1 = false) :
    (perform L purpose action s).attempts = min k 3
    ∧ ((perform L purpose action s).err = none ↔
        k ≤ 3 ∧ (nthCall action s (k - 1)).1 = none)
    ∧ (∀ e, k ≤ 3 → (nthCall action s (k - 1)).1 = some e →
        (perform L purpose action s).attempts = k
        ∧ (perform L purpose action s).state = (nthCall action s (k - 1)).2
        ∧ (perform L purpose action s).err = Annotatef (some e) (purpose ++ ascii " failed")
        ∧ (perform L purpose action s).err ≠ none
        ∧ ((perform L purpose action s).err
              = some (.withStack (.withMessage (purpose ++ ascii " failed") e))
            ∨ (perform L purpose action s).err
              = some (.withMessage (purpose ++ ascii " failed") e))
        ∧ ((perform L purpose action s).err
              = some (.withStack (.withMessage (purpose ++ ascii " failed") e))
            ↔ e.hasStack = false)
        ∧ (perform L purpose action s).err ≠ some e
        ∧ Cause (perform L purpose action s).err = some e.cause) := by
  obtain ⟨h1, h2, h3⟩ := perform_first_stop_core L purpose action s k hk hstop hfirst
  refine ⟨h1, h2, ?_⟩
  intro e hle he
  obtain ⟨a1, a2, a3, a4⟩ := h3 e hle he
  refine ⟨a1, a2, a3, a4, ?_, ?_, ?_, ?_⟩
  · rw [a3]
    exact Annotatef_shape e _
  · rw [a3]
    by_cases hs : e.hasStack <;> simp [Annotatef, hs]
  · rw [a3]
    exact ne_Annotatef_self e _
  · rw [a3, Cause_Annotatef]
    rfl

/-- Witness of C8: with a first call that fails with the retryable `busyError`
and a second call that succeeds, two calls and nil; with a second call that
fails with the non-retryable `duplicateError`, two calls and that error under
`switch mode failed`. -/
theorem perform_first_stop_witness :
    ((perform [] (ascii "switch mode") busyOnceAction 0).attempts = 2
      ∧ (perform [] (ascii "switch mode") busyOnceAction 0).err = none)
    ∧ ((perform [] (ascii "switch mode") busyThenDuplicateAction 0).attempts = 2
      ∧ (perform [] (ascii "switch mode") busyThenDuplicateAction 0).err
        = some (.withStack (.withMessage (ascii "switch mode failed") duplicateError))) := by
  have h := perform_first_stop [] (ascii "switch mode") busyOnceAction 0 2 (by decide)
    (by decide) (by
      intro j hj
      have : j = 0 := by omega
      subst this
      decide)
  have g := perform_first_stop [] (ascii "switch mode") busyThenDuplicateAction 0 2
    (by decide) (by decide) (by
      intro j hj
      have : j = 0 := by omega
      subst this
      decide)
  have g3 := g.2.2 duplicateError (by decide) (by decide)
  exact ⟨⟨h.1, h.2.1.mpr ⟨by decide, by decide⟩⟩, g3.1, g3.2.2.2.2.2.1.mpr (by decide)⟩


/-! ## `Transact`: the calls of one attempt -/

/-- C12: in every attempt of `Transact`: when beginning the transaction fails
with `e`, the action, commit and rollback are not called and the attempt's
error is `e` under a message layer `begin transaction failed` (with a stack
layer on top when `e` carried none), not `e` itself; when the action fails,
rollback is called exactly once and commit never, and the attempt returns the
action's error; when the action succeeds, commit is called exactly once and
rollback never, the attempt succeeds exactly when commit succeeds, and a commit
error `e` is returned under a message layer `commit transaction failed`. -/
theorem transactAttempt_calls {σ : Type} (t : SQLWithRetry σ) (purpose : GoString)
    (action : σ → Error × σ) (w : σ × List TxCall) :
    (∀ e, (t.DB.BeginTx w.1).1 = some e →
      (transactAttempt t purpose action w).1
        = Annotate (some e) (ascii "begin transaction failed")
      ∧ ((transactAttempt t purpose action w).1
            = some (.withStack (.withMessage (ascii "begin transaction failed") e))
          ∨ (transactAttempt t purpose action w).1
            = some (.withMessage (ascii "begin transaction failed") e))
      ∧ ((transactAttempt t purpose action w).1
            = some (.withStack (.withMessage (ascii "begin transaction failed") e))
          ↔ e.hasStack = false)
      ∧ (transactAttempt t purpose action w).1 ≠ some e
      ∧ Cause (transactAttempt t purpose action w).1 = some e.cause
      ∧ (transactAttempt t purpose action w).2.1 = (t.DB.BeginTx w.1).2
      ∧ (transactAttempt t purpose action w).2.2 = w.2 ++ [TxCall.beginTx])
    ∧ (∀ e, (t.DB.BeginTx w.1).1 = none → (action (t.DB.BeginTx w.1).2).1 = some e →
      (transactAttempt t purpose action w).1 = some e
      ∧ (transactAttempt t purpose action w).2.1
        = (t.DB.Rollback (action (t.DB.BeginTx w.1).2).2).2
      ∧ (transactAttempt t purpose action w).2.2
        = w.2 ++ [TxCall.beginTx, TxCall.action, TxCall.rollback]
          ++ (match (t.DB.Rollback (action (t.DB.BeginTx w.1).2).2).1 with
              | some rerr =>
                [TxCall.logError (purpose ++ ascii " rollback transaction failed") rerr]
              | none => [])
      ∧ (transactAttempt t purpose action w).2.2.count TxCall.rollback
        = w.2.count TxCall.rollback + 1
      ∧ (transactAttempt t purpose action w).2.2.count TxCall.commit
        = w.2.count TxCall.commit)
    ∧ ((t.DB.BeginTx w.1).1 = none → (action (t.DB.BeginTx w.1).2).1 = none →
      (transactAttempt t purpose action w).2.1
        = (t.DB.Commit (action (t.DB.BeginTx w.1).2).2).2
      ∧ (transactAttempt t purpose action w).2.2
        = w.2 ++ [TxCall.beginTx, TxCall.action, TxCall.commit]
      ∧ (transactAttempt t purpose action w).2.2.count TxCall.commit
        = w.2.count TxCall.commit + 1
      ∧ (transactAttempt t purpose action w).2.2.count TxCall.rollback
        = w.2.count TxCall.rollback
      ∧ ((transactAttempt t purpose action w).1 = none ↔
          (t.DB.Commit (action (t.DB.BeginTx w.1).2).2).1 = none)
      ∧ (∀ e, (t.DB.Commit (action (t.DB.BeginTx w.1).2).2).1 = some e →
          (transactAttempt t purpose action w).1
            = Annotate (some e) (ascii "commit transaction failed")
          ∧ ((transactAttempt t purpose action w).1
                = some (.withStack (.withMessage (ascii "commit transaction failed") e))
              ∨ (transactAttempt t purpose action w).1
                = some (.withMessage (ascii "commit transaction failed") e))
          ∧ ((transactAttempt t purpose action w).1
                = some (.withStack (.withMessage (ascii "commit transaction failed") e))
              ↔ e.hasStack = false)
          ∧ (transactAttempt t purpose action w).1 ≠ some e
          ∧ Cause (transactAttempt t purpose action w).1 = some e.cause)) := by
  obtain ⟨hb, ha, hc⟩ := transactAttempt_calls_core t purpose action w
  have shape : ∀ (e : GoError) (m : GoString) (x : Error), x = Annotate (some e) m →
      (x = some (.withStack (.withMessage m e)) ∨ x = some (.withMessage m e))
      ∧ (x = some (.withStack (.withMessage m e)) ↔ e.hasStack = false)
      ∧ x ≠ some e ∧ Cause x = some e.cause := by
    intro e m x hx
    subst hx
    refine ⟨Annotate_shape e m, ?_, ne_Annotate_self e m, ?_⟩
    · by_cases hs : e.hasStack <;> simp [Annotate, hs]
    · rw [Cause_Annotate]
      rfl
  refine ⟨?_, ?_, ?_⟩
  · intro e he
    obtain ⟨h1, h2, h3⟩ := hb e he
    obtain ⟨s1, s2, s3, s4⟩ := shape e _ _ h1
    exact ⟨h1, s1, s2, s3, s4, h2, h3⟩
  · intro e he hae
    obtain ⟨h1, h2, h3, h4⟩ := ha e he hae
    exact ⟨(transactAttempt_action_fails t purpose action w e he hae).1, h1, h2, h3, h4⟩
  · intro he hae
    obtain ⟨h1, h2, h3, h4, h5, h6⟩ := hc he hae
    refine ⟨h1, h2, h3, h4, h5, ?_⟩
    intro e hce
    obtain ⟨s1, s2, s3, s4⟩ := shape e _ _ (h6 e hce)
    exact ⟨h6 e hce, s1, s2, s3, s4⟩

/-- Witness of C12, one attempt for each branch: begin fails (`busyDB`); the
action fails and the rollback fails too (`rollbackFailsDB`); the action
succeeds and commit fails (`commitFailsDB`); the action succeeds and commit
succeeds (`rollbackFailsDB`). -/
theorem transactAttempt_calls_witness :
    ((transactAttempt busyRetry (ascii "import") okAction (0, [])).2.2 = [TxCall.beginTx]
      ∧ (transactAttempt busyRetry (ascii "import") okAction (0, [])).1
        = some (.withStack (.withMessage (ascii "begin transaction failed") busyError)))
    ∧ ((transactAttempt rollbackFailsRetry (ascii "import") duplicateAction (0, [])).1
        = some duplicateError
      ∧ (transactAttempt rollbackFailsRetry (ascii "import") duplicateAction (0, [])).2.2
        = [TxCall.beginTx, TxCall.action, TxCall.rollback,
           TxCall.logError (ascii "import rollback transaction failed") busyError]
      ∧ (transactAttempt rollbackFailsRetry (ascii "import") duplicateAction
          (0, [])).2.2.count TxCall.rollback = 1
      ∧ (transactAttempt rollbackFailsRetry (ascii "import") duplicateAction
          (0, [])).2.2.count TxCall.commit = 0)
    ∧ ((transactAttempt commitFailsRetry (ascii "import") okAction (0, [])).2.2
        = [TxCall.beginTx, TxCall.action, TxCall.commit]
      ∧ (transactAttempt commitFailsRetry (ascii "import") okAction (0, [])).1
        = some (.withStack (.withMessage (ascii "commit transaction failed") busyError)))
    ∧ ((transactAttempt rollbackFailsRetry (ascii "import") okAction (0, [])).1 = none
      ∧ (transactAttempt rollbackFailsRetry (ascii "import") okAction
          (0, [])).2.2.count TxCall.commit = 1
      ∧ (transactAttempt rollbackFailsRetry (ascii "import") okAction
          (0, [])).2.2.count TxCall.rollback = 0) := by
  have b := (transactAttempt_calls busyRetry (ascii "import") okAction (0, [])).1 busyError
    (by decide)
  have a := (transactAttempt_calls rollbackFailsRetry (ascii "import") duplicateAction
    (0, [])).2.1 duplicateError (by decide) (by decide)
  have c := (transactAttempt_calls commitFailsRetry (ascii "import") okAction (0, [])).2.2
    (by decide) (by decide)
  have c5 := c.2.2.2.2.2 busyError (by decide)
  have k := (transactAttempt_calls rollbackFailsRetry (ascii "import") okAction (0, [])).2.2
    (by decide) (by decide)
  exact ⟨⟨b.2.2.2.2.2.2, b.2.2.1.mpr (by decide)⟩,
    ⟨a.1, a.2.2.1, a.2.2.2.1, a.2.2.2.2⟩,
    ⟨c.2.1, c5.2.2.1.mpr (by decide)⟩,
    ⟨k.2.2.2.2.1.mpr (by decide), k.2.2.1, k.2.2.2.1⟩⟩


/-! ## The DSN: how a value is escaped -/

set_option maxRecDepth 100000 in
theorem queryEscape_byte :
    ∀ c, c < 256 →
      (if c = 32 then [43]
        else if shouldEscape c then [37, upperhex (c / 16), upperhex (c % 16)] else [c])
      = (if c = 32 then [43] else percentEncodeByte c) := by
  decide

theorem queryEscape_eq (v : GoString) (hv : ∀ c ∈ v, c < 256) :
    QueryEscape v = v.flatMap (fun c => if c = 32 then [43] else percentEncodeByte c) := by
  induction v with
  | nil => rfl
  | cons c rest ih =>
    have hc := queryEscape_byte c (hv c (List.mem_cons_self _ _))
    have hr := ih (fun x hx => hv x (List.mem_cons_of_mem _ hx))
    unfold QueryEscape at hr ⊢
    rw [List.flatMap_cons, List.flatMap_cons, hc, hr]

theorem plusSegment_eq_spec (kv : GoString × GoString) (h : 32 ∉ kv.2) :
    plusSegment kv = specSegment kv := by
  unfold plusSegment specSegment percentEncode
  congr 1
  apply List.flatMap_congr
  intro c hc
  have : c ≠ 32 := fun h32 => h (h32 ▸ hc)
  simp [this]

theorem varSegment_eq_plus (kv : GoString × GoString) (hv : ∀ c ∈ kv.2, c < 256) :
    varSegment kv = plusSegment kv := by
  unfold varSegment plusSegment
  rw [queryEscape_eq kv.2 hv]


/-- C15 as stated fails: a value with a space is not percent-encoded. For the
session variable `k` with value `a b`, `ToDSN` ends in `&k=a+b`, while the
segment with the percent-encoded value is `&k=a%20b`. -/
theorem toDSN_eq_counterexample :
    RangeOrder spaceVarParam.Vars [(ascii "k", ascii "a b")]
    ∧ ToDSN spaceVarParam [(ascii "k", ascii "a b")]
        = baseDSN spaceVarParam ++ ascii "&k=a+b"
    ∧ baseDSN spaceVarParam ++ [(ascii "k", ascii "a b")].flatMap specSegment
        = baseDSN spaceVarParam ++ ascii "&k=a%20b"
    ∧ ToDSN spaceVarParam [(ascii "k", ascii "a b")]
        ≠ baseDSN spaceVarParam ++ [(ascii "k", ascii "a b")].flatMap specSegment := by
  refine ⟨List.Perm.refl _, by decide, by decide, by decide⟩

/-- C15, amended: for every connection-parameter value, and in whatever order
the map of session variables is visited, `ToDSN` returns the base string
`<User>:<Password>@tcp(<Host>:<Port>)/?charset=utf8mb4&sql_mode='<SQLMode>'&maxAllowedPacket=<MaxAllowedPacket>&tls=<TLS>`
(numbers in decimal) followed by exactly one segment `&<key>=<escaped value>`
for each entry of `Vars` and nothing else, where the value is escaped as
`url.QueryEscape` does: percent-encoded byte by byte, except that a space is
written as `+`; for values without a space the segments are the percent-encoded
ones; with `Vars` empty the result is the base string, as for the parameters of
`TestLoadConfig`. -/
theorem toDSN_eq (param : MySQLConnectParam) (order : List (GoString × GoString))
    (h : RangeOrder param.Vars order)
    (hb : ∀ kv ∈ param.Vars, ∀ c ∈ kv.2, c < 256) :
    ToDSN param order
      = (param.User ++ ascii ":" ++ param.Password ++ ascii "@tcp(" ++ param.Host ++ ascii ":"
          ++ decimalInt param.Port ++ ascii ")/?charset=utf8mb4&sql_mode=" ++ [39]
          ++ param.SQLMode ++ [39] ++ ascii "&maxAllowedPacket="
          ++ decimalNat param.MaxAllowedPacket ++ ascii "&tls=" ++ param.TLS)
        ++ order.flatMap (fun kv => ascii "&" ++ kv.1 ++ ascii "="
            ++ kv.2.flatMap (fun c => if c = 32 then [43] else percentEncodeByte c))
    ∧ ((∀ kv ∈ param.Vars, 32 ∉ kv.2) →
        ToDSN param order = baseDSN param ++ order.flatMap specSegment)
    ∧ (order.map plusSegment).Perm (param.Vars.map plusSegment)
    ∧ order.length = param.Vars.length
    ∧ (param.Vars = [] → ToDSN param order = baseDSN param)
    ∧ ∀ mode : GoString, ToDSN (guestParam mode) []
        = ascii "guest:12345@tcp(172.16.30.11:4001)/?charset=utf8mb4&sql_mode=" ++ [39]
          ++ mode ++ [39] ++ ascii "&maxAllowedPacket=67108864&tls=false" := by
  have hmem : ∀ kv ∈ order, kv ∈ param.Vars := fun kv hkv => (List.Perm.mem_iff h).mp hkv
  have hplus : ToDSN param order = baseDSN param ++ order.flatMap plusSegment := by
    rw [toDSN_segments]
    congr 1
    apply List.flatMap_congr
    intro kv hkv
    exact varSegment_eq_plus kv (hb kv (hmem kv hkv))
  refine ⟨hplus, ?_, List.Perm.map _ h, List.Perm.length_eq h, ?_, ?_⟩
  · intro hsp
    rw [hplus]
    congr 1
    apply List.flatMap_congr
    intro kv hkv
    exact plusSegment_eq_spec kv (hsp kv (hmem kv hkv))
  · intro hv
    have ho : order = [] := by
      have := List.Perm.length_eq h
      rw [hv] at this
      exact List.length_eq_zero.mp this
    rw [toDSN_segments, ho]
    simp
  · intro mode
    rw [toDSN_segments]
    have hp : decimalInt 4001 = ascii "4001" := by decide
    have hm : decimalNat 67108864 = ascii "67108864" := by decide
    simp [baseDSN, guestParam, hp, hm, ascii]

/-- Witness of C15 amended: two session variables whose values need escaping,
visited in the order `m`, `k`. -/
theorem toDSN_eq_witness :
    RangeOrder escapedVarsParam.Vars [(ascii "m", ascii "x&y"), (ascii "k", ascii "a b")]
    ∧ (∀ kv ∈ escapedVarsParam.Vars, ∀ c ∈ kv.2, c < 256)
    ∧ ToDSN escapedVarsParam [(ascii "m", ascii "x&y"), (ascii "k", ascii "a b")]
      = baseDSN escapedVarsParam ++ ascii "&m=x%26y&k=a+b" := by
  have hr : RangeOrder escapedVarsParam.Vars
      [(ascii "m", ascii "x&y"), (ascii "k", ascii "a b")] := List.Perm.swap _ _ _
  have hbytes : ∀ kv ∈ escapedVarsParam.Vars, ∀ c ∈ kv.2, c < 256 := by decide
  have h := (toDSN_eq escapedVarsParam
    [(ascii "m", ascii "x&y"), (ascii "k", ascii "a b")] hr hbytes).1
  refine ⟨hr, hbytes, ?_⟩
  rw [h]
  decide

/-- Witness of C16 amended: the two orders of a map with two session variables
give the same segments in two orders, two strings of the same length that are
not the same string; a map with one session variable gives one string. -/
theorem toDSN_deterministic_witness :
    (RangeOrder escapedVarsParam.Vars [(ascii "k", ascii "a b"), (ascii "m", ascii "x&y")]
      ∧ RangeOrder escapedVarsParam.Vars [(ascii "m", ascii "x&y"), (ascii "k", ascii "a b")])
    ∧ (ToDSN escapedVarsParam [(ascii "k", ascii "a b"), (ascii "m", ascii "x&y")]
        = baseDSN escapedVarsParam ++ ascii "&k=a+b&m=x%26y"
      ∧ ToDSN escapedVarsParam [(ascii "m", ascii "x&y"), (ascii "k", ascii "a b")]
        = baseDSN escapedVarsParam ++ ascii "&m=x%26y&k=a+b")
    ∧ (ToDSN escapedVarsParam [(ascii "k", ascii "a b"), (ascii "m", ascii "x&y")]).length
        = (ToDSN escapedVarsParam
            [(ascii "m", ascii "x&y"), (ascii "k", ascii "a b")]).length
    ∧ ToDSN escapedVarsParam [(ascii "k", ascii "a b"), (ascii "m", ascii "x&y")]
        ≠ ToDSN escapedVarsParam [(ascii "m", ascii "x&y"), (ascii "k", ascii "a b")]
    ∧ ToDSN spaceVarParam [(ascii "k", ascii "a b")]
        = ToDSN spaceVarParam spaceVarParam.Vars := by
  have h1 : RangeOrder escapedVarsParam.Vars
      [(ascii "k", ascii "a b"), (ascii "m", ascii "x&y")] := List.Perm.refl _
  have h2 : RangeOrder escapedVarsParam.Vars
      [(ascii "m", ascii "x&y"), (ascii "k", ascii "a b")] := List.Perm.swap _ _ _
  have d := toDSN_deterministic escapedVarsParam _ _ h1 h2
  have one := (toDSN_deterministic spaceVarParam [(ascii "k", ascii "a b")]
    spaceVarParam.Vars (List.Perm.refl _) (List.Perm.refl _)).2.2.2.2 (by decide)
  refine ⟨⟨h1, h2⟩, ⟨?_, ?_⟩, d.2.2.2.1, by decide, one⟩
  · rw [d.1]
    decide
  · rw [d.2.1]
    decide


end Lightning
